import Mathlib

/-!
Verification development for the SLURM layouts manager (layouts_mgr.c) and
the per-job I/O multiplexing engine (src/slurmd/io.c).

The definitions below are shallow embeddings of the C source: C structs become
Lean structures, pointer graphs become id-indexed association lists, machine
integers become Int/Nat with explicit wrapping where overflow matters, and
loops whose termination is not structural are given an explicit fuel argument
(a result of none means the C loop does not terminate, or hits undefined
behaviour such as dereferencing NULL).
-/

set_option maxHeartbeats 1000000

/-! ### Status codes and bitmask constants (slurm_errno.h / layouts_mgr.h) -/

def SLURM_SUCCESS : Int := 0

def SLURM_ERROR : Int := -1

def LAYOUTS_API_SET : Nat := 1

def LAYOUTS_API_GET : Nat := 2

def LAYOUTS_SET_DIRECTION_NONE : Nat := 0x00000001

def LAYOUTS_SET_DIRECTION_SAVE : Nat := 0x00000002

def LAYOUTS_SET_DIRECTION_UP : Nat := 0x00000004

def LAYOUTS_SET_DIRECTION_DOWN : Nat := 0x00000008

def LAYOUTS_SET_OPERATION_SET : Nat := 0x00000010

def LAYOUTS_SET_OPERATION_SUM : Nat := 0x00000020

def LAYOUTS_SET_CONSOLIDATION_SUM : Nat := 0x00000100

def LAYOUTS_SET_CONSOLIDATION_MEAN : Nat := 0x00000200

def LAYOUTS_SET_CONSOLIDATION_SET : Nat := 0x00000400

/-- Bit test, modelling the C expression `mask & bit` used as a boolean. -/
def maskHas (mask bit : Nat) : Bool := mask &&& bit != 0

/-! ### Machine arithmetic for the consolidation engine

The layouts keys used with consolidation are numeric (the embedding follows
the L_T_LONG case, a 64-bit signed integer on the reference platform).
Addition wraps modulo 2^64 as on hardware (spec section 4.2); division is the
C division, truncating toward zero. -/

def wrap64 (x : Int) : Int := (x + 2 ^ 63) % 2 ^ 64 - 2 ^ 63

/-- C `+=` on a 64-bit signed long, as performed by `_consolidation_add`. -/
def consolidationAdd (sum toadd : Int) : Int := wrap64 (sum + toadd)

/-- C `/=` on a signed long by a positive child count,
as performed by `_consolidation_div` (truncating division). -/
def consolidationDiv (val : Int) (nb : Nat) : Int := Int.tdiv val nb

/-! ### Layout relational structure and tree model

`layout->struct_type`: `LAYOUT_STRUCT_TREE` is the only structure the engine
implements; other values reach the `default` cases of the C switches. -/

inductive LStruct where
  | tree : LStruct
  | other : LStruct
deriving DecidableEq, Repr

/-! Entity tree of a layout (xtree of entities): each node carries the entity
id, the entity's stored attribute value for the queried key, and the ordered
forest of child nodes (xtree first-child/sibling links). -/

mutual
inductive XTree where
  | node : Nat → Int → XForest → XTree
deriving DecidableEq, Repr
inductive XForest where
  | nil : XForest
  | cons : XTree → XForest → XForest
deriving DecidableEq, Repr
end

def XTree.eid : XTree → Nat
  | .node e _ _ => e

def XTree.val : XTree → Int
  | .node _ v _ => v

def XTree.children : XTree → XForest
  | .node _ _ cs => cs

def XForest.toList : XForest → List XTree
  | .nil => []
  | .cons t ts => t :: ts.toList

def XForest.length : XForest → Nat
  | .nil => 0
  | .cons _ ts => ts.length + 1

/-! ### _recursive_update_get (layouts_mgr.c)

Pure embedding of the directional GET consolidation.  The C function walks
the xtree mutating each visited entity's stored value in place and returns a
pointer to the current entity's value; here the function returns the computed
value together with the updated subtree and the number of `error()` log calls
it issued (the unsupported combinations log and break without computing).
The ancestor values (nearest parent first) stand for the parent chain
reachable through `xtree_get_parent`; they are only read by the UP+SET
branch: the current entity is the root when the chain is empty (break,
keep own value), otherwise the parent is consolidated recursively and is
copied into the current value only under `LAYOUTS_SET_OPERATION_SET`
(a bit that GET validation never lets through). -/

def rguUpSetVal (mask : Nat) : List Int → Int → Int
  | [], v => v
  | p :: rest, v =>
    if maskHas mask LAYOUTS_SET_OPERATION_SET then rguUpSetVal mask rest p
    else v

mutual
def recursiveUpdateGet (struct : LStruct) (mask : Nat) (anc : List Int) :
    XTree → Int × XTree × Nat
  | .node e v cs =>
    match struct with
    | .other => (v, .node e v cs, 0)
    | .tree =>
      if maskHas mask LAYOUTS_SET_DIRECTION_UP then
        if maskHas mask LAYOUTS_SET_CONSOLIDATION_SUM then
          (v, .node e v cs, 1)
        else if maskHas mask LAYOUTS_SET_CONSOLIDATION_MEAN then
          (v, .node e v cs, 1)
        else if maskHas mask LAYOUTS_SET_CONSOLIDATION_SET then
          match anc with
          | [] => (v, .node e v cs, 0)
          | a :: anc' =>
            let pv := rguUpSetVal mask (a :: anc') v
            (pv, .node e pv cs, 0)
        else (v, .node e v cs, 0)
      else if maskHas mask LAYOUTS_SET_DIRECTION_DOWN then
        if maskHas mask LAYOUTS_SET_CONSOLIDATION_SET then
          (v, .node e v cs, 1)
        else if maskHas mask LAYOUTS_SET_CONSOLIDATION_SUM
             || maskHas mask LAYOUTS_SET_CONSOLIDATION_MEAN then
          match cs with
          | .nil => (v, .node e v cs, 0)
          | .cons c cs' =>
            let r := recursiveUpdateGetForest struct mask (v :: anc) (.cons c cs')
            let s := r.1.foldl (fun a b => consolidationAdd a b) 0
            let nv :=
              if maskHas mask LAYOUTS_SET_CONSOLIDATION_MEAN then
                consolidationDiv s (XForest.cons c cs').length
              else s
            (nv, .node e nv r.2.1, r.2.2)
        else (v, .node e v cs, 0)
      else (v, .node e v cs, 0)

def recursiveUpdateGetForest (struct : LStruct) (mask : Nat) (anc : List Int) :
    XForest → List Int × XForest × Nat
  | .nil => ([], .nil, 0)
  | .cons t ts =>
    let r1 := recursiveUpdateGet struct mask anc t
    let r2 := recursiveUpdateGetForest struct mask anc ts
    (r1.1 :: r2.1, .cons r1.2.1 r2.2.1, r1.2.2 + r2.2.2)
end

/-- Value computed by a directional GET on an entity node
(first component of the embedded `_recursive_update_get`). -/
def rguVal (struct : LStruct) (mask : Nat) (anc : List Int) (t : XTree) : Int :=
  (recursiveUpdateGet struct mask anc t).1

/-! ### Tree navigation helpers (xtree.c accessors used by the manager)

These model `xtree_find` (first match in a depth-first search, assuming the
entity ids at the tree nodes are distinct, as one entity has a single data
storage), `xtree_get_parent`, and in-place mutation of an entity's stored
value (`updEntityVal` updates every node carrying the entity id, mirroring
the shared storage an entity's data has in the C code). -/

mutual
def findSubtree (i : Nat) : XTree → Option XTree
  | .node e v cs =>
    if e = i then some (.node e v cs) else findSubtreeF i cs
def findSubtreeF (i : Nat) : XForest → Option XTree
  | .nil => none
  | .cons t ts =>
    match findSubtree i t with
    | some r => some r
    | none => findSubtreeF i ts
end

/-- Stored value of entity `i` (`entity_get_data` for the queried key);
none models a NULL result. -/
def findEntityVal (i : Nat) (t : XTree) : Option Int :=
  (findSubtree i t).map XTree.val

mutual
def parentOfT (p : Option Nat) (i : Nat) : XTree → Option (Option Nat)
  | .node e _ cs => if e = i then some p else parentOfF (some e) i cs
def parentOfF (p : Option Nat) (i : Nat) : XForest → Option (Option Nat)
  | .nil => none
  | .cons t ts =>
    match parentOfT p i t with
    | some r => some r
    | none => parentOfF p i ts
end

mutual
def updEntityVal (i : Nat) (f : Int → Int) : XTree → XTree
  | .node e v cs => .node e (if e = i then f v else v) (updEntityValF i f cs)
def updEntityValF (i : Nat) (f : Int → Int) : XForest → XForest
  | .nil => .nil
  | .cons t ts => .cons (updEntityVal i f t) (updEntityValF i f ts)
end

/-! ### _recursive_update_init_get and the per-entity GET loop -/

mutual
def rguAt (struct : LStruct) (mask : Nat) (anc : List Int) (i : Nat) :
    XTree → Option (Int × XTree × Nat)
  | .node e v cs =>
    if e = i then some (recursiveUpdateGet struct mask anc (.node e v cs))
    else
      match rguAtF struct mask (v :: anc) i cs with
      | none => none
      | some r => some (r.1, .node e v r.2.1, r.2.2)
def rguAtF (struct : LStruct) (mask : Nat) (anc : List Int) (i : Nat) :
    XForest → Option (Int × XForest × Nat)
  | .nil => none
  | .cons t ts =>
    match rguAt struct mask anc i t with
    | some r => some (r.1, .cons r.2.1 ts, r.2.2)
    | none =>
      match rguAtF struct mask anc i ts with
      | none => none
      | some r => some (r.1, .cons t r.2.1, r.2.2)
end

/-- Embedded `_recursive_update_init_get`: reads the entity's current value
(NULL result makes the caller dereference NULL, modelled as none), then for a
tree structure locates the entity's node and runs the directional
consolidation from it; for any other structure kind the switch has no case
and the current value is returned untouched. -/
def recursiveUpdateInitGet (struct : LStruct) (mask : Nat) (i : Nat) (t : XTree) :
    Option (Int × XTree × Nat) :=
  match findEntityVal i t with
  | none => none
  | some v =>
    match struct with
    | .other => some (v, t, 0)
    | .tree => rguAt struct mask [] i t

/-- Per-entity loop of the GET-with-direction branch of `layouts_api`:
`values[i] = *(_recursive_update_init_get(entities_struct[i], ...))`,
threading the tree mutations left to right. -/
def apiGetDirectionLoop (struct : LStruct) (mask : Nat) :
    List Nat → XTree → Option (List Int × XTree × Nat)
  | [], t => some ([], t, 0)
  | i :: rest, t =>
    match recursiveUpdateInitGet struct mask i t with
    | none => none
    | some (v, t1, lg) =>
      match apiGetDirectionLoop struct mask rest t1 with
      | none => none
      | some (vs, t2, lg2) => some (v :: vs, t2, lg + lg2)

/-! ### _check_layout_consolidation -/

/-- Embedded `_check_layout_consolidation`: operation bits are mandatory for
SET and forbidden for GET; NONE/SAVE direction bits classify the mask as
directionless (taking precedence over UP/DOWN); a mask with no direction bit
at all is an error; for a tree structure, direction and consolidation bits
must come together or not at all; for any other structure both must be
absent. -/
def checkLayoutConsolidation (mask : Nat) (struct : LStruct) (setGet : Nat) : Int :=
  let consoOp : Nat :=
    if maskHas mask LAYOUTS_SET_OPERATION_SUM
       || maskHas mask LAYOUTS_SET_OPERATION_SET then 1 else 0
  let opOk : Bool :=
    if setGet = LAYOUTS_API_GET then consoOp = 0
    else if setGet = LAYOUTS_API_SET then consoOp = 1
    else false
  if !opOk then SLURM_ERROR
  else
    let consoDir : Option Nat :=
      if maskHas mask LAYOUTS_SET_DIRECTION_NONE
         || maskHas mask LAYOUTS_SET_DIRECTION_SAVE then some 0
      else if maskHas mask LAYOUTS_SET_DIRECTION_UP
              || maskHas mask LAYOUTS_SET_DIRECTION_DOWN then some 1
      else none
    match consoDir with
    | none => SLURM_ERROR
    | some dir =>
      let consoSet : Nat :=
        if maskHas mask LAYOUTS_SET_CONSOLIDATION_MEAN
           || maskHas mask LAYOUTS_SET_CONSOLIDATION_SUM
           || maskHas mask LAYOUTS_SET_CONSOLIDATION_SET then 1 else 0
      match struct with
      | .tree => if consoSet ≠ dir then SLURM_ERROR else SLURM_SUCCESS
      | .other => if dir ≠ 0 ∨ consoSet ≠ 0 then SLURM_ERROR else SLURM_SUCCESS

/-! ### _update_set (fueled embedding)

The level-by-level propagation loops of `_update_set` are embedded with an
explicit fuel argument; a result of none means the C code does not terminate
or dereferences an invalid pointer.  The inner child-counting loop of the
DOWN+SET branch is transliterated exactly as written in the source:
`other_node = current_node->start; s = 1;
 while (other_node != current_node->end) { s++; }` —
the cursor `other_node` is never advanced inside the loop body.  Children are
modelled by their position in the forest, the first child at index 0 and
`current_node->end` at index `length - 1`. -/

def countChildrenLoop (fuel : Nat) (other endIdx : Nat) (s : Nat) : Option Nat :=
  match fuel with
  | 0 => none
  | f + 1 =>
    if other = endIdx then some s
    else countChildrenLoop f other endIdx (s + 1)

/-- C `-=` on a 64-bit signed long, as performed by `_consolidation_substract`. -/
def consolidationSub (a b : Int) : Int := wrap64 (a - b)

def usUpForLoop (fuel : Nat) (t : XTree) (work : List (Nat × Int)) (i i2 : Nat) :
    Option (List (Nat × Int)) :=
  match fuel with
  | 0 => none
  | f + 1 =>
    if i = i2 then some work
    else
      match work[i]? with
      | none => none
      | some (cur, v) =>
        if cur = t.eid then some work
        else
          match parentOfT none cur t with
          | none => none
          | some none => some work
          | some (some p) => usUpForLoop f t (work ++ [(p, v)]) (i + 1) i2

def usUpLevelLoop (fuel : Nat) (t : XTree) (work : List (Nat × Int)) (i1 i2 : Nat) :
    Option (List (Nat × Int)) :=
  match fuel with
  | 0 => none
  | f + 1 =>
    if i1 = i2 then some work
    else
      match usUpForLoop f t work i1 i2 with
      | none => none
      | some w => usUpLevelLoop f t w i2 w.length

def usDownForLoop (fuel : Nat) (work : List (XTree × Int)) (i i2 : Nat) :
    Option (List (XTree × Int)) :=
  match fuel with
  | 0 => none
  | f + 1 =>
    if i = i2 then some work
    else
      match work[i]? with
      | none => none
      | some (cur, v) =>
        match cur.children with
        | .nil => some work
        | cs =>
          match countChildrenLoop f 0 (cs.length - 1) 1 with
          | none => none
          | some _ =>
            usDownForLoop f (work ++ cs.toList.map (fun c => (c, v))) (i + 1) i2

def usDownLevelLoop (fuel : Nat) (work : List (XTree × Int)) (i1 i2 : Nat) :
    Option (List (XTree × Int)) :=
  match fuel with
  | 0 => none
  | f + 1 =>
    if i1 = i2 then some work
    else
      match usDownForLoop f work i1 i2 with
      | none => none
      | some w => usDownLevelLoop f w i2 w.length

/-- Embedded `_update_set`.  The UP+MEAN, UP+SET, DOWN+MEAN and DOWN+SUM
combinations log an error and break, leaving the working set as it was; for
a non-tree structure the default case only counts the entities.  A NULL
values array (the `update` flavour of the call) makes both implemented
branches write through the zero-initialized `values[i]` pointers
(`_consolidation_alloc` loses its allocation because the parameter is passed
by value), which is modelled as none. -/
def updateSet (fuel : Nat) (values : Option (List Int)) (ids : List Nat)
    (mask : Nat) (struct : LStruct) (t : XTree) :
    Option (List Nat × Option (List Int)) :=
  match struct with
  | .other => some (ids, values)
  | .tree =>
    if maskHas mask LAYOUTS_SET_DIRECTION_UP then
      if maskHas mask LAYOUTS_SET_CONSOLIDATION_MEAN then some (ids, values)
      else if maskHas mask LAYOUTS_SET_CONSOLIDATION_SET then some (ids, values)
      else if maskHas mask LAYOUTS_SET_CONSOLIDATION_SUM then
        match values with
        | none => none
        | some vs =>
          if vs.length = ids.length ∧ ids.all (fun i => (findSubtree i t).isSome) then
            match usUpLevelLoop fuel t (ids.zip vs) 0 ids.length with
            | none => none
            | some w => some (w.map Prod.fst, some (w.map Prod.snd))
          else none
      else some (ids, values)
    else if maskHas mask LAYOUTS_SET_DIRECTION_DOWN then
      if maskHas mask LAYOUTS_SET_CONSOLIDATION_MEAN then some (ids, values)
      else if maskHas mask LAYOUTS_SET_CONSOLIDATION_SUM then some (ids, values)
      else if maskHas mask LAYOUTS_SET_CONSOLIDATION_SET then
        match values with
        | none => none
        | some vs =>
          match ids.mapM (fun i => findSubtree i t) with
          | none => none
          | some nodes =>
            if vs.length = ids.length then
              match usDownLevelLoop fuel (nodes.zip vs) 0 ids.length with
              | none => none
              | some w =>
                some (w.map (fun p => p.1.eid), some (w.map Prod.snd))
            else none
      else some (ids, values)
    else some (ids, values)

/-! ### layouts_api -/

/-- Context of a `layouts_api` call that the manager resolves from its plugin
registry: whether `_layouts_get_plugin` finds the plugin for the layout type
(a NULL `layout_type` behaves the same way), whether the plugin has a
`plugin_spec` and which relational `struct_type` it declares, and whether a
non-NULL `key_type` naming a numeric key of the plugin keyspec was passed. -/
structure ApiCtx where
  pluginFound : Bool
  specStruct : Option LStruct
  keyGiven : Bool
deriving DecidableEq, Repr

/-- Replacement of a list of entity values (`_consolidation_set` through the
captured `e_data[i]` pointers). -/
def applySetList (pairs : List (Nat × Int)) (t : XTree) : XTree :=
  pairs.foldl (fun acc p => updEntityVal p.1 (fun _ => p.2) acc) t

/-- Accumulation into a list of entity values (`_consolidation_add` through
the captured `e_data[i]` pointers). -/
def applyAddList (pairs : List (Nat × Int)) (t : XTree) : XTree :=
  pairs.foldl (fun acc p => updEntityVal p.1 (fun v => consolidationAdd v p.2) acc) t

/-- Body of `layouts_api` after the validation prefix: SET pre-work (building
the values array from the caller vector, capturing the entity data pointers,
and subtracting the current values under OPERATION_SET), the directional
branch (per-entity consolidation for GET, `_update_set` for SET), the SET
apply phase, and the GET output construction.  The result is
(status, updated tree, output vector written for GET); none models
non-termination or undefined behaviour. -/
def layoutsApiBody (fuel : Nat) (setGet : Nat) (mask : Nat) (struct : LStruct)
    (ids : List Nat) (vector : Option (List Int)) (t : XTree) :
    Option (Int × XTree × Option (List Int)) :=
  let nb := ids.length
  let setPre : Option (Option (List Int)) :=
    if setGet = LAYOUTS_API_SET then
      match ids.mapM (fun i => findEntityVal i t) with
      | none => none
      | some evals =>
        match vector with
        | none => some none
        | some vec =>
          if vec.length < nb then none
          else if maskHas mask LAYOUTS_SET_OPERATION_SET then
            some (some (List.zipWith consolidationSub (vec.take nb) evals))
          else some (some (vec.take nb))
    else some none
  match setPre with
  | none => none
  | some values0 =>
    let afterDir : Option (Option (List Int) × List Nat × XTree) :=
      if maskHas mask LAYOUTS_SET_DIRECTION_DOWN
         || maskHas mask LAYOUTS_SET_DIRECTION_UP then
        if setGet = LAYOUTS_API_GET then
          match apiGetDirectionLoop struct mask ids t with
          | none => none
          | some (vals, t1, _) => some (some vals, ids, t1)
        else
          match updateSet fuel values0 ids mask struct t with
          | none => none
          | some (ids1, vals1) => some (vals1, ids1, t)
      else some (values0, ids, t)
    match afterDir with
    | none => none
    | some (values1, workIds, t1) =>
      if setGet = LAYOUTS_API_SET then
        match values1 with
        | none => some (SLURM_ERROR, t1, none)
        | some vs =>
          match (workIds.drop nb).mapM (fun i => findEntityVal i t1) with
          | none => none
          | some _ =>
            let initPairs := ids.zip (vs.take nb)
            let derivedPairs := (workIds.drop nb).zip (vs.drop nb)
            let t2 := if maskHas mask LAYOUTS_SET_OPERATION_SET then
                        applySetList initPairs t1 else t1
            let t3 := if maskHas mask LAYOUTS_SET_OPERATION_SUM then
                        applyAddList initPairs t2 else t2
            let t4 := if maskHas mask LAYOUTS_SET_CONSOLIDATION_SET then
                        applySetList derivedPairs t3 else t3
            let t5 := if maskHas mask LAYOUTS_SET_CONSOLIDATION_SUM then
                        applyAddList derivedPairs t4 else t4
            some (SLURM_SUCCESS, t5, none)
      else
        match values1 with
        | none =>
          match ids.mapM (fun i => findEntityVal i t1) with
          | none => none
          | some vals =>
            some (SLURM_SUCCESS, t1, if vector.isSome then some vals else none)
        | some vals =>
          some (SLURM_SUCCESS, t1, if vector.isSome then some vals else none)

/-- Embedded `layouts_api`: the single generic entry point.  The validation
prefix runs before anything touches entity data: plugin lookup, plugin spec
presence, non-empty entity list, `_check_layout_consolidation`, key
presence.  Any failure returns SLURM_ERROR with the tree untouched and no
output written. -/
def layouts_api (fuel : Nat) (ctx : ApiCtx) (setGet : Nat) (mask : Nat)
    (names : Option (List Nat)) (estruct : Option (List Nat))
    (vector : Option (List Int)) (t : XTree) :
    Option (Int × XTree × Option (List Int)) :=
  if !ctx.pluginFound then some (SLURM_ERROR, t, none)
  else
    match ctx.specStruct with
    | none => some (SLURM_ERROR, t, none)
    | some struct =>
      match (match names with | some l => some l | none => estruct) with
      | none => some (SLURM_ERROR, t, none)
      | some ids =>
        if ids.length = 0 then some (SLURM_ERROR, t, none)
        else if checkLayoutConsolidation mask struct setGet ≠ SLURM_SUCCESS then
          some (SLURM_ERROR, t, none)
        else if !ctx.keyGiven then some (SLURM_ERROR, t, none)
        else layoutsApiBody fuel setGet mask struct ids vector t

/-- Embedded `layouts_api_get_updated_value`: checks the direction and
consolidation arguments, then delegates to `layouts_api` with
`LAYOUTS_API_GET` and the or-ed mask. -/
def layouts_api_get_updated_value (fuel : Nat) (ctx : ApiCtx)
    (names : List Nat) (direction conso : Nat)
    (vector : Option (List Int)) (t : XTree) :
    Option (Int × XTree × Option (List Int)) :=
  if direction ≠ LAYOUTS_SET_DIRECTION_UP
     ∧ direction ≠ LAYOUTS_SET_DIRECTION_DOWN then some (SLURM_ERROR, t, none)
  else if conso ≠ LAYOUTS_SET_CONSOLIDATION_MEAN
          ∧ conso ≠ LAYOUTS_SET_CONSOLIDATION_SET
          ∧ conso ≠ LAYOUTS_SET_CONSOLIDATION_SUM then some (SLURM_ERROR, t, none)
  else layouts_api fuel ctx LAYOUTS_API_GET (direction ||| conso)
        (some names) none vector t

/-- Embedded `layouts_api_propagate_value`: checks direction, consolidation
and operation arguments, then delegates to `layouts_api` with
`LAYOUTS_API_SET` and the or-ed mask. -/
def layouts_api_propagate_value (fuel : Nat) (ctx : ApiCtx)
    (names : List Nat) (operation direction conso : Nat)
    (vector : Option (List Int)) (t : XTree) :
    Option (Int × XTree × Option (List Int)) :=
  if direction ≠ LAYOUTS_SET_DIRECTION_UP
     ∧ direction ≠ LAYOUTS_SET_DIRECTION_DOWN then some (SLURM_ERROR, t, none)
  else if conso ≠ LAYOUTS_SET_CONSOLIDATION_MEAN
          ∧ conso ≠ LAYOUTS_SET_CONSOLIDATION_SET
          ∧ conso ≠ LAYOUTS_SET_CONSOLIDATION_SUM then some (SLURM_ERROR, t, none)
  else if operation ≠ LAYOUTS_SET_OPERATION_SET
          ∧ operation ≠ LAYOUTS_SET_OPERATION_SUM then some (SLURM_ERROR, t, none)
  else layouts_api fuel ctx LAYOUTS_API_SET (operation ||| direction ||| conso)
        (some names) none vector t

/-! ### Stage-1 configuration loading: the per-Entity-line decision
(_layouts_read_config, lines 1205-1250) -/

inductive Stage1Action where
  | skipLine : Stage1Action
  | createEntity : Stage1Action
  | mergeExisting : Stage1Action
deriving DecidableEq, Repr

/-- Embedded decision taken by `_layouts_read_config` for one `Entity` line:
`etypes` is the plugin's allowed entity type set, `existingType` the type of
an already-registered entity of that name (none when the name is new), and
`declaredType` the `Type=` value on the line (none when absent).  The type
consistency test is transliterated exactly as written in the source:
`if (!strcmp(e_type, e->type)) { error(...); continue; }`, which skips the
line when the two types are EQUAL and falls through to the attribute merge
when they differ. -/
def stage1EntityAction (etypes : List String) (existingType : Option String)
    (declaredType : Option String) : Stage1Action :=
  match existingType with
  | none =>
    match declaredType with
    | none => .skipLine
    | some ty => if etypes.contains ty then .createEntity else .skipLine
  | some ety =>
    match declaredType with
    | none => .mergeExisting
    | some ty =>
      if !etypes.contains ty then .skipLine
      else if ty = ety then .skipLine
      else .mergeExisting

/-! ### slurm_layouts_load_config (idempotence guard) -/

/-- State owned by the layouts manager singleton: the entity table, the
layout registry and the key definition registry (each represented by the
list of registered ids). -/
structure MgrState where
  entities : List Nat
  layouts : List Nat
  keydefs : List Nat
deriving DecidableEq, Repr

/-- Embedded `slurm_layouts_load_config`.  The function first takes the
manager lock and returns SLURM_SUCCESS immediately when the entity table is
already populated (`if (xhash_count(layouts_mgr.entities)) { unlock; return
rc; }` with `rc = SLURM_SUCCESS`); only on an empty entity table does it run
the actual loading, represented here by the explicit `loadRest` argument
standing for the remainder of the C function (base layout construction, node
entity creation, stage 1 and stage 2). -/
def slurm_layouts_load_config (loadRest : MgrState → Int × MgrState)
    (st : MgrState) : Int × MgrState :=
  if st.entities.length ≠ 0 then (SLURM_SUCCESS, st) else loadRest st

/-! ## I/O multiplexing engine (src/slurmd/io.c)

I/O objects (`io_obj_t` plus their `struct io_info`) are identified by
natural-number ids; the per-job state carries the master object list
(`job->objs`), the id-indexed object table, and a flag recording that the C
code performed an operation that aborts or is undefined (iterating or
deleting from a NULL list).  The readers/writers adjacency lists are
`Option (List Nat)`: none models a NULL `List` pointer, which several object
kinds never allocate. -/

inductive IOType where
  | taskStderr | taskStdout | taskStdin
  | clientStderr | clientStdout | clientStdin
deriving DecidableEq, Repr

/-- Identity of the dispatch table installed in `obj->ops` (the four
`io_operations` structs of io.c; `_ops_copy` copies by value, so a copy is
identified with its source table). -/
inductive OpsTag where
  | taskOutOps | taskInOps | clientOps | connectingClientOps
deriving DecidableEq, Repr

structure IOInfo where
  fd : Int
  buf : Option (List Nat)
  bufCap : Nat
  eof : Bool
  disconnected : Bool
  ioType : IOType
  readers : Option (List Nat)
  writers : Option (List Nat)
  ops : OpsTag
deriving DecidableEq, Repr

def defaultIOInfo : IOInfo :=
  { fd := -1, buf := none, bufCap := 0, eof := false, disconnected := false,
    ioType := .taskStdout, readers := none, writers := none, ops := .taskOutOps }

structure IOState where
  objs : List Nat
  infos : Nat → IOInfo
  crashed : Bool

def IOState.get (st : IOState) (i : Nat) : IOInfo := st.infos i

def IOState.set (st : IOState) (i : Nat) (io : IOInfo) : IOState :=
  { st with infos := fun j => if j = i then io else st.infos j }

def IOState.upd (st : IOState) (i : Nat) (f : IOInfo → IOInfo) : IOState :=
  st.set i (f (st.get i))

def IOState.crash (st : IOState) : IOState := { st with crashed := true }

/-- C `list_count`, applied to lists that the reachable call sites always
allocate. -/
def listCountOpt (l : Option (List Nat)) : Nat := (l.getD []).length

/-- Embedded `_io_obj` object construction: dispatch table, buffer
(`cbuf_create(512, 10240)` for task stdin, `cbuf_create(16, 1048576)` for
client stdout/stderr; capacities are the cbuf maximum sizes) and adjacency
lists per object kind — note CLIENT_STDOUT falls through into CLIENT_STDERR
in the C switch, and that `io->disconnected = fd < 0 ? 1 : 0` makes an object
created with an invalid descriptor start life as a ghost. -/
def ioObjNew (fd : Int) (ty : IOType) : IOInfo :=
  let base := { defaultIOInfo with
                fd := fd, ioType := ty, disconnected := decide (fd < 0) }
  match ty with
  | .taskStderr => { base with ops := .taskOutOps, readers := some [] }
  | .taskStdout => { base with ops := .taskOutOps, readers := some [] }
  | .taskStdin => { base with
                    ops := .taskInOps, buf := some [], bufCap := 10240,
                    writers := some [] }
  | .clientStdout => { base with
                       ops := .clientOps, readers := some [],
                       buf := some [], bufCap := 1048576, writers := some [] }
  | .clientStderr => { base with
                       ops := .clientOps, buf := some [],
                       bufCap := 1048576, writers := some [] }
  | .clientStdin => { base with ops := .clientOps, readers := some [] }

/-- Embedded `_io_connect_objs`: append `obj2` to `obj1->readers` and `obj1`
to `obj2->writers`, each only when not already present. -/
def ioConnectObjs (st : IOState) (o1 o2 : Nat) : IOState :=
  match (st.get o1).readers with
  | none => st.crash
  | some rs =>
    let st1 :=
      if rs.contains o2 then st
      else st.upd o1 (fun io => { io with readers := some (rs ++ [o2]) })
    match (st1.get o2).writers with
    | none => st1.crash
    | some ws =>
      if ws.contains o1 then st1
      else st1.upd o2 (fun io => { io with writers := some (ws ++ [o1]) })

/-- Embedded `_io_client_attach`.  With no writer the client is connected to
the reader only and appended to the object list.  Otherwise the writer's
first reader is peeked: a disconnected ghost is resurrected in place (its fd,
disconnected flag and dispatch table are overwritten with the new client's;
its buffer, eof flag, place in the readers list and place in the object list
are kept; the new client object is deleted from the object list), and the
resurrected object is wired to the reader when one is given; in every other
case the client inherits the peeked reader's eof flag, is wired to writer and
reader, and is appended to the object list. -/
def ioClientAttach (st : IOState) (client : Nat) (writer reader : Option Nat) :
    IOState :=
  match writer with
  | none =>
    match reader with
    | none => st.crash
    | some r =>
      let st1 := ioConnectObjs st client r
      { st1 with objs := st1.objs ++ [client] }
  | some w =>
    match (st.get w).readers with
    | none => st.crash
    | some rs =>
      match rs.head? with
      | some g =>
        if (st.get g).disconnected then
          let cliFd := (st.get client).fd
          let cliOps := (st.get client).ops
          let st1 := st.upd g (fun io =>
            { io with fd := cliFd, disconnected := false, ops := cliOps })
          let st2 := { st1 with objs := st1.objs.filter (fun o => o ≠ client) }
          match reader with
          | none => st2
          | some r => ioConnectObjs st2 g r
        else
          let st1 := st.upd client (fun io => { io with eof := (st.get g).eof })
          let st2 := ioConnectObjs st1 w client
          let st3 := match reader with
            | none => st2
            | some r => ioConnectObjs st2 client r
          { st3 with objs := st3.objs ++ [client] }
      | none =>
        let st1 := st.upd client (fun io => { io with eof := false })
        let st2 := ioConnectObjs st1 w client
        let st3 := match reader with
          | none => st2
          | some r => ioConnectObjs st2 client r
        { st3 with objs := st3.objs ++ [client] }

/-- Embedded `_io_disconnect`: `list_delete_all(src->readers, find_obj, dst)`
then `list_delete_all(dst->writers, find_obj, src)`; a NULL list is an
assertion failure / invalid dereference inside `list_delete_all`. -/
def ioDisconnect (st : IOState) (src dst : Nat) : IOState :=
  let st1 :=
    match (st.get src).readers with
    | none => st.crash
    | some rs => st.upd src (fun io => { io with readers := some (rs.filter (fun x => x ≠ dst)) })
  match (st1.get dst).writers with
  | none => st1.crash
  | some ws => st1.upd dst (fun io => { io with writers := some (ws.filter (fun x => x ≠ src)) })

/-- Embedded `_io_disconnect_client`: the client becomes a ghost
(`disconnected = 1`); then for each of the client's writers `t` with more
than one reader, `_io_disconnect(client, t)` is called and the client is
marked for deletion from the object list; then for each of the client's
readers `t` with more than one writer, `_io_disconnect(t, client)` is
called.  The argument order of the two `_io_disconnect` calls is
transliterated exactly as in the source. -/
def ioDisconnectClient (st : IOState) (client : Nat) : IOState :=
  let st1 := st.upd client (fun io => { io with disconnected := true })
  let pass1 :=
    match (st1.get client).writers with
    | none => (st1, false)
    | some ws =>
      ws.foldl (fun acc t =>
        if listCountOpt ((acc.1.get t).readers) > 1 then (ioDisconnect acc.1 client t, true)
        else acc) (st1, false)
  let st3 :=
    match (pass1.1.get client).readers with
    | none => pass1.1
    | some rs =>
      rs.foldl (fun acc t =>
        if listCountOpt ((acc.get t).writers) > 1 then ioDisconnect acc t client
        else acc) pass1.1
  if pass1.2 then { st3 with objs := st3.objs.filter (fun o => o ≠ client) } else st3

def isaClient (io : IOInfo) : Bool :=
  io.ioType = .clientStdout || io.ioType = .clientStderr || io.ioType = .clientStdin

def isaTask (io : IOInfo) : Bool :=
  io.ioType = .taskStdout || io.ioType = .taskStderr || io.ioType = .taskStdin

/-- Embedded `_shutdown_task_obj`: copy EOF to all readers (or writers for
task stdin); the task object itself is never destroyed. -/
def shutdownTaskObj (st : IOState) (t : Nat) : IOState :=
  let l := if (st.get t).ioType = .taskStdin then (st.get t).writers
           else (st.get t).readers
  match l with
  | none => st.crash
  | some rs => rs.foldl (fun acc r => acc.upd r (fun io => { io with eof := true })) st

/-- Embedded `_obj_close`: invalidate the descriptor, then disconnect a
client into ghost state or propagate EOF from a task object. -/
def objClose (st : IOState) (o : Nat) : IOState :=
  let st1 := st.upd o (fun io => { io with fd := -1 })
  if isaClient (st1.get o) then ioDisconnectClient st1 o else shutdownTaskObj st1 o

/-- Embedded `_io_prepare_tasks` for one task using the id block
base..base+4: task stdin, task stdout, the buffering ghost stdout client
(created with descriptor -1, hence born disconnected), task stderr, and the
ghost stderr client.  Task pipe descriptors are valid (non-negative); the
placeholder 1 is used. -/
def prepareTask (st : IOState) (base : Nat) : IOState :=
  let tin := base
  let tout := base + 1
  let gout := base + 2
  let terr := base + 3
  let gerr := base + 4
  let st1 := { (st.set tin (ioObjNew 1 .taskStdin)) with objs := st.objs ++ [tin] }
  let st2 := { (st1.set tout (ioObjNew 1 .taskStdout)) with objs := st1.objs ++ [tout] }
  let st3 := st2.set gout (ioObjNew (-1) .clientStdout)
  let st4 := ioClientAttach st3 gout (some tout) none
  let st5 := { (st4.set terr (ioObjNew 1 .taskStderr)) with objs := st4.objs ++ [terr] }
  let st6 := st5.set gerr (ioObjNew (-1) .clientStderr)
  ioClientAttach st6 gerr (some terr) none

/-- Embedded `_io_prepare_tasks` over `n` tasks (task `i` uses the id block
`5*i .. 5*i+4`). -/
def ioPrepareTasks (n : Nat) (st : IOState) : IOState :=
  (List.range n).foldl (fun acc i => prepareTask acc (5 * i)) st

/-! ### Read/write handlers

A handler invocation is parameterized by the outcome of its (re-tried past
EINTR) read or write system call.  `ReadResult.bytes []` is the zero-byte
read, i.e. end of file. -/

inductive ReadResult where
  | bytes : List Nat → ReadResult
  | errRead : Nat → ReadResult
deriving DecidableEq, Repr

inductive WriteResult where
  | wrote : Nat → WriteResult
  | errWrite : Nat → WriteResult
deriving DecidableEq, Repr

def EAGAIN : Nat := 11

def EWOULDBLOCK : Nat := 11

/-- Result of a handler: a return code with the updated job state, or
termination of the whole process through `fatal()`. -/
inductive HandlerResult where
  | ok : Int → IOState → HandlerResult
  | fatalExit : HandlerResult

/-- Modelled from the spec: the bounded ring buffer (cbuf.c is not under
src/).  Spec sections 3 and 5: capacities are fixed, a write stores what fits
and silently drops the excess so the used size never exceeds the capacity;
the returned count is the number of bytes actually stored. -/
def cbufWrite (b : List Nat) (cap : Nat) (l : List Nat) : List Nat × Nat :=
  let w := min l.length (cap - b.length)
  (b ++ l.take w, w)

/-- Fan-out loop shared by `_task_read` and `_client_read`:
`n = cbuf_write(r->buf, buf, n, &dropped)` — the byte count `n` is
overwritten by each write's return value, exactly as in the source. -/
def fanoutToReaders (st : IOState) (rs : List Nat) (block : List Nat) : IOState :=
  (rs.foldl (fun acc r =>
    let io := acc.1.get r
    match io.buf with
    | none => (acc.1.crash, acc.2)
    | some b =>
      let res := cbufWrite b io.bufCap (block.take acc.2)
      ((acc.1.upd r (fun io2 => { io2 with buf := some res.1 })), res.2))
    (st, block.length)).1

/-- Embedded `_task_read`: EAGAIN/EWOULDBLOCK logs and returns 0 (retried on
the next poll cycle); another errno returns -1; a zero-byte read closes the
object; otherwise the bytes are fanned out to every current reader. -/
def taskRead (st : IOState) (o : Nat) (res : ReadResult) : HandlerResult :=
  match res with
  | .errRead e =>
    if e = EAGAIN ∨ e = EWOULDBLOCK then .ok 0 st
    else .ok (-1) st
  | .bytes l =>
    if l.isEmpty then .ok 0 (objClose st o)
    else
      match (st.get o).readers with
      | none => .ok 0 st.crash
      | some rs => .ok 0 (fanoutToReaders st rs l)

/-- Embedded `_client_read`: EAGAIN/EWOULDBLOCK calls
`fatal("client read")`, terminating the process; another errno returns -1; a
zero-byte read disconnects the client; stderr-typed client reads are a stub
returning 0; stdout-typed reads fan out to the client's readers. -/
def clientRead (st : IOState) (o : Nat) (res : ReadResult) : HandlerResult :=
  match res with
  | .errRead e =>
    if e = EAGAIN ∨ e = EWOULDBLOCK then .fatalExit
    else .ok (-1) st
  | .bytes l =>
    if l.isEmpty then .ok 0 (objClose st o)
    else if (st.get o).ioType = .clientStderr then .ok 0 st
    else
      match (st.get o).readers with
      | none => .ok 0 st.crash
      | some rs => .ok 0 (fanoutToReaders st rs l)

/-- Embedded `_write`: a disconnected object returns 0 immediately; EOF with
a drained buffer closes the object; a would-block write defers to the next
poll cycle returning 0 with the buffer intact; a hard write error closes the
object and returns -1; a successful write drains the written bytes. -/
def writeHandler (st : IOState) (o : Nat) (res : WriteResult) : HandlerResult :=
  let io := st.get o
  if io.disconnected then .ok 0 st
  else
    match io.buf with
    | none => .ok 0 st.crash
    | some b =>
      if io.eof ∧ b.length = 0 then .ok 0 (objClose st o)
      else
        match res with
        | .errWrite e =>
          if e = EAGAIN ∨ e = EWOULDBLOCK then .ok 0 st
          else .ok (-1) (objClose st o)
        | .wrote n => .ok 0 (st.upd o (fun io2 => { io2 with buf := some (b.drop n) }))

/-- Repeated disconnect/reconnect cycles on one task output stream: each
element of the id list is a freshly connecting client; the current reader
`g` first disconnects (read EOF path of `_obj_close`), then the new client
is attached to the same writer. -/
def ghostCycles (wtr g : Nat) : List Nat → IOState → IOState
  | [], st => st
  | c :: cs, st =>
    ghostCycles wtr g cs (ioClientAttach (ioDisconnectClient st g) c (some wtr) none)

/-- A small concrete io handle: object 0 is a task stderr writer whose sole
reader is object 1, a disconnected ghost client holding buffered bytes, and
object 2 is a freshly accepted client socket. -/
def c1State : IOState :=
  { objs := [0, 1, 2],
    infos := fun i =>
      if i = 0 then
        { defaultIOInfo with
          fd := 5, ioType := .taskStderr, readers := some [1],
          ops := .taskOutOps }
      else if i = 1 then
        { fd := -1, buf := some [7, 8], bufCap := 1048576, eof := true,
          disconnected := true, ioType := .clientStderr, readers := none,
          writers := some [0], ops := .clientOps }
      else if i = 2 then
        { defaultIOInfo with
          fd := 9, ioType := .clientStderr, ops := .clientOps,
          buf := some [], bufCap := 1048576, writers := some [] }
      else defaultIOInfo,
    crashed := false }

/-- A task stdout object (id 0) with two attached readers: client 1's ring
buffer is full (4 bytes stored, capacity 4) while client 2's buffer is empty
with capacity 100 (the C capacities are 1048576; small ones keep the witness
computation readable). -/
def c8State : IOState :=
  { objs := [0, 1, 2],
    infos := fun i =>
      if i = 0 then
        { defaultIOInfo with
          fd := 3, ioType := .taskStdout, readers := some [1, 2] }
      else if i = 1 then
        { fd := -1, buf := some [1, 2, 3, 4], bufCap := 4, eof := false,
          disconnected := true, ioType := .clientStdout, readers := none,
          writers := some [0], ops := .clientOps }
      else if i = 2 then
        { fd := 7, buf := some [], bufCap := 100, eof := false,
          disconnected := false, ioType := .clientStdout, readers := none,
          writers := some [0], ops := .clientOps }
      else defaultIOInfo,
    crashed := false }

/-! ## Basic state lemmas -/

theorem IOState.get_set (st : IOState) (i : Nat) (io : IOInfo) (j : Nat) :
    (st.set i io).get j = if j = i then io else st.get j := rfl

theorem IOState.get_upd (st : IOState) (i : Nat) (f : IOInfo → IOInfo) (j : Nat) :
    (st.upd i f).get j = if j = i then f (st.get i) else st.get j := rfl

theorem IOState.objs_set (st : IOState) (i : Nat) (io : IOInfo) :
    (st.set i io).objs = st.objs := rfl

theorem IOState.objs_upd (st : IOState) (i : Nat) (f : IOInfo → IOInfo) :
    (st.upd i f).objs = st.objs := rfl

theorem IOState.get_crash (st : IOState) (j : Nat) :
    (st.crash).get j = st.get j := rfl

theorem IOState.get_mk (o : List Nat) (f : Nat → IOInfo) (c : Bool) (x : Nat) :
    (IOState.mk o f c).get x = f x := rfl

theorem IOState.infos_apply (st : IOState) (x : Nat) :
    st.infos x = st.get x := rfl

/-! ## Claim theorems -/

/-- C9: if the layouts manager's entity table is already populated, a second
call of slurm_layouts_load_config is a no-op that returns success: nothing is
added, removed, or modified in the entity, layout, or key definition
registries. -/
theorem c9_load_config_idempotent (loadRest : MgrState → Int × MgrState)
    (st : MgrState) (h : st.entities ≠ []) :
    slurm_layouts_load_config loadRest st = (SLURM_SUCCESS, st) := by
  unfold slurm_layouts_load_config
  simp [List.length_eq_zero, h]

theorem c9_load_config_idempotent_witness :
    (([7], [8], [9]) : List Nat × List Nat × List Nat).1 ≠ [] ∧
    slurm_layouts_load_config (fun s => (SLURM_ERROR, s)) ⟨[7], [8], [9]⟩ =
      (SLURM_SUCCESS, ⟨[7], [8], [9]⟩) :=
  ⟨by decide,
   c9_load_config_idempotent (fun s => (SLURM_ERROR, s)) ⟨[7], [8], [9]⟩ (by decide)⟩

/-- C3: the type-consistency check of stage-1 configuration loading,
evaluated at the failing input.  With allowed entity types node and switch
and an entity already registered with type node, a re-declaration with the
IDENTICAL type node is skipped (the code tests `!strcmp`, i.e. equality,
where inequality was meant — its own error message says the type "differs"),
while a re-declaration with the DIFFERENT type switch falls through to the
attribute merge.  The claim (and the code's error message) demand the
opposite behaviour. -/
theorem c3_stage1_type_check_inverted :
    stage1EntityAction ["node", "switch"] (some "node") (some "node")
      = .skipLine ∧
    stage1EntityAction ["node", "switch"] (some "node") (some "switch")
      = .mergeExisting := by
  constructor <;> rfl

/-- C4 (amended): EAGAIN/EWOULDBLOCK is transient for the task read handler
and for the buffer-draining write handler — they return 0 with the state
untouched, retrying on the next poll cycle — but the client read handler
calls `fatal("client read")` on the same condition, terminating the whole
process. -/
theorem c4_eagain_transient_amended :
    (∀ (st : IOState) (o : Nat),
        taskRead st o (.errRead EAGAIN) = .ok 0 st ∧
        taskRead st o (.errRead EWOULDBLOCK) = .ok 0 st) ∧
    (∀ (st : IOState) (o : Nat),
        (st.get o).disconnected = false →
        ∀ b : List Nat, (st.get o).buf = some b →
        ¬((st.get o).eof = true ∧ b.length = 0) →
        writeHandler st o (.errWrite EAGAIN) = .ok 0 st) ∧
    (∀ (st : IOState) (o : Nat),
        clientRead st o (.errRead EAGAIN) = .fatalExit) := by
  refine ⟨fun st o => ⟨rfl, rfl⟩, ?_, fun st o => rfl⟩
  intro st o hdisc b hbuf hne
  simp only [writeHandler, hdisc, hbuf, Bool.false_eq_true, if_false]
  rw [if_neg hne]
  simp [EAGAIN, EWOULDBLOCK]

/-- C4 counterexample: at a concrete job state, a client read failing with
EAGAIN does not return for a retry on the next poll cycle — it terminates
the process through fatal(), contradicting the claim that for every read
handler EAGAIN is transient and never terminates the process. -/
theorem c4_client_read_eagain_fatal :
    clientRead ⟨[0], fun _ => defaultIOInfo, false⟩ 0 (.errRead EAGAIN)
      = .fatalExit ∧
    ∀ (rc : Int) (st : IOState), (HandlerResult.fatalExit : HandlerResult) ≠ .ok rc st :=
  ⟨rfl, fun _ _ h => HandlerResult.noConfusion h⟩

theorem c4_eagain_transient_witness :
    taskRead ⟨[0], fun _ => defaultIOInfo, false⟩ 0 (.errRead EAGAIN)
      = .ok 0 ⟨[0], fun _ => defaultIOInfo, false⟩ ∧
    writeHandler ⟨[0], fun _ =>
        { defaultIOInfo with buf := some [3], bufCap := 4 }, false⟩ 0
        (.errWrite EAGAIN)
      = .ok 0 ⟨[0], fun _ =>
        { defaultIOInfo with buf := some [3], bufCap := 4 }, false⟩ :=
  ⟨(c4_eagain_transient_amended.1 ⟨[0], fun _ => defaultIOInfo, false⟩ 0).1,
   c4_eagain_transient_amended.2.1 _ 0 rfl [3] rfl (by simp)⟩

theorem countChildrenLoop_stuck (other endIdx : Nat) (h : other ≠ endIdx) :
    ∀ fuel s, countChildrenLoop fuel other endIdx s = none := by
  intro fuel
  induction fuel with
  | zero => intro s; rfl
  | succ f ih =>
    intro s
    simp only [countChildrenLoop]
    rw [if_neg h]
    exact ih (s + 1)

theorem usDownForLoop_stuck (work : List (XTree × Int)) (i i2 : Nat) (t : XTree)
    (v : Int) (hne : i ≠ i2) (hw : work[i]? = some (t, v))
    (h2 : 2 ≤ t.children.length) :
    ∀ fuel, usDownForLoop fuel work i i2 = none := by
  intro fuel
  cases fuel with
  | zero => rfl
  | succ f =>
    simp only [usDownForLoop]
    rw [if_neg hne, hw]
    cases ht : t.children with
    | nil => rw [ht] at h2; simp [XForest.length] at h2
    | cons c cs =>
      have hlen : 1 ≤ cs.length := by
        rw [ht] at h2; simp only [XForest.length] at h2; omega
      have h0 : (0 : Nat) ≠ (XForest.cons c cs).length - 1 := by
        simp only [XForest.length]; omega
      simp only [ht]
      rw [countChildrenLoop_stuck 0 ((XForest.cons c cs).length - 1) h0 f 1]

theorem usDownLevelLoop_stuck (work : List (XTree × Int)) (i2 : Nat) (t : XTree)
    (v : Int) (hne0 : (0 : Nat) ≠ i2) (hw : work[0]? = some (t, v))
    (h2 : 2 ≤ t.children.length) :
    ∀ fuel, usDownLevelLoop fuel work 0 i2 = none := by
  intro fuel
  cases fuel with
  | zero => rfl
  | succ f =>
    simp only [usDownLevelLoop]
    rw [if_neg hne0, usDownForLoop_stuck work 0 i2 t v hne0 hw h2 f]

/-- C6: evaluation of the code at the failing input.  A SET with direction
DOWN and consolidation SET, started from the entity list containing the root
of a tree whose root has two children, never terminates no matter how many
steps it is given: the child-counting loop of `_update_set` never advances
its cursor (`while (other_node != current_node->end) { s++; }`), so the
value is never propagated to any descendant.  The claim says the call
terminates and replaces every descendant's value. -/
theorem c6_set_down_set_never_terminates :
    ∀ fuel : Nat,
      layouts_api_propagate_value fuel ⟨true, some .tree, true⟩ [0]
        LAYOUTS_SET_OPERATION_SET LAYOUTS_SET_DIRECTION_DOWN
        LAYOUTS_SET_CONSOLIDATION_SET (some [5])
        (.node 0 10 (.cons (.node 1 1 .nil) (.cons (.node 2 2 .nil) .nil)))
        = none := by
  intro fuel
  have hcheck : checkLayoutConsolidation 1048 .tree 1 = SLURM_SUCCESS := by
    decide
  have hstuck := usDownLevelLoop_stuck
      [((XTree.node 0 10 (.cons (.node 1 1 .nil) (.cons (.node 2 2 .nil) .nil))),
        (-5 : Int))] 1
      (XTree.node 0 10 (.cons (.node 1 1 .nil) (.cons (.node 2 2 .nil) .nil)))
      (-5 : Int) (by decide) rfl (by decide) fuel
  have hsub : consolidationSub 5 10 = -5 := by decide
  have h1048 : ((16 : Nat) ||| 8 ||| 1024) = 1048 := by decide
  have m16 : ¬((1048 : Nat) &&& 16 = 0) := by decide
  have m8 : ¬((1048 : Nat) &&& 8 = 0) := by decide
  have m4 : ((1048 : Nat) &&& 4) = 0 := by decide
  have m512 : ((1048 : Nat) &&& 512) = 0 := by decide
  have m256 : ((1048 : Nat) &&& 256) = 0 := by decide
  have m1024 : ¬((1048 : Nat) &&& 1024 = 0) := by decide
  have m32 : ((1048 : Nat) &&& 32) = 0 := by decide
  simp only [layouts_api_propagate_value, layouts_api, layoutsApiBody, updateSet,
    maskHas, LAYOUTS_SET_DIRECTION_UP, LAYOUTS_SET_DIRECTION_DOWN,
    LAYOUTS_SET_DIRECTION_NONE, LAYOUTS_SET_DIRECTION_SAVE,
    LAYOUTS_SET_OPERATION_SET, LAYOUTS_SET_OPERATION_SUM,
    LAYOUTS_SET_CONSOLIDATION_SET, LAYOUTS_SET_CONSOLIDATION_SUM,
    LAYOUTS_SET_CONSOLIDATION_MEAN, LAYOUTS_API_SET, LAYOUTS_API_GET]
  simp only [h1048]
  simp [m16, m8, m4, m512, m256, m1024, m32, List.mapM.loop, findEntityVal,
    findSubtree, findSubtreeF, XTree.val, hsub, hstuck, hcheck]

theorem checkLayoutConsolidation_other_dir (mask : Nat) (sg : Nat)
    (hdir : maskHas mask LAYOUTS_SET_DIRECTION_UP = true ∨
            maskHas mask LAYOUTS_SET_DIRECTION_DOWN = true)
    (hnone : maskHas mask LAYOUTS_SET_DIRECTION_NONE = false)
    (hsave : maskHas mask LAYOUTS_SET_DIRECTION_SAVE = false) :
    checkLayoutConsolidation mask .other sg = SLURM_ERROR := by
  rcases hdir with h | h <;>
    simp [checkLayoutConsolidation, hnone, hsave, h, ite_self]

theorem checkLayoutConsolidation_get_op (mask : Nat) (struct : LStruct)
    (hop : maskHas mask LAYOUTS_SET_OPERATION_SET = true ∨
           maskHas mask LAYOUTS_SET_OPERATION_SUM = true) :
    checkLayoutConsolidation mask struct LAYOUTS_API_GET = SLURM_ERROR := by
  rcases hop with h | h <;>
    simp [checkLayoutConsolidation, h, LAYOUTS_API_GET, LAYOUTS_API_SET]

/-- C7 (amended): the bitmask validation of the generic API rejects, before
any mutating phase and with the entity tree untouched: (a) any call on a
non-tree layout whose mask carries the UP or DOWN direction bits, provided it
does not also carry the NONE or SAVE bits, which take precedence in the
classification; (b) any GET carrying the SET or SUM operation bits; (c) any
call with an empty entity list. -/
theorem c7_validation_rejects_before_mutation :
    (∀ (fuel : Nat) (keyGiven : Bool) (setGet mask : Nat)
       (names estruct : Option (List Nat)) (vector : Option (List Int)) (t : XTree),
        (maskHas mask LAYOUTS_SET_DIRECTION_UP = true ∨
         maskHas mask LAYOUTS_SET_DIRECTION_DOWN = true) →
        maskHas mask LAYOUTS_SET_DIRECTION_NONE = false →
        maskHas mask LAYOUTS_SET_DIRECTION_SAVE = false →
        layouts_api fuel ⟨true, some .other, keyGiven⟩ setGet mask names estruct
            vector t
          = some (SLURM_ERROR, t, none)) ∧
    (∀ (fuel : Nat) (struct : LStruct) (keyGiven : Bool) (mask : Nat)
       (names estruct : Option (List Nat)) (vector : Option (List Int)) (t : XTree),
        (maskHas mask LAYOUTS_SET_OPERATION_SET = true ∨
         maskHas mask LAYOUTS_SET_OPERATION_SUM = true) →
        layouts_api fuel ⟨true, some struct, keyGiven⟩ LAYOUTS_API_GET mask names
            estruct vector t
          = some (SLURM_ERROR, t, none)) ∧
    (∀ (fuel : Nat) (ctx : ApiCtx) (setGet mask : Nat)
       (vector : Option (List Int)) (t : XTree),
        layouts_api fuel ctx setGet mask (some []) none vector t
          = some (SLURM_ERROR, t, none)) := by
  refine ⟨?_, ?_, ?_⟩
  · intro fuel keyGiven setGet mask names estruct vector t hdir hnone hsave
    have hchk := checkLayoutConsolidation_other_dir mask setGet hdir hnone hsave
    cases names with
    | none =>
      cases estruct with
      | none => simp [layouts_api]
      | some ids =>
        by_cases hlen : ids.length = 0 <;>
          simp [layouts_api, hlen, hchk, SLURM_ERROR, SLURM_SUCCESS]
    | some ids =>
      by_cases hlen : ids.length = 0 <;>
        simp [layouts_api, hlen, hchk, SLURM_ERROR, SLURM_SUCCESS]
  · intro fuel struct keyGiven mask names estruct vector t hop
    have hchk := checkLayoutConsolidation_get_op mask struct hop
    cases names with
    | none =>
      cases estruct with
      | none => simp [layouts_api]
      | some ids =>
        by_cases hlen : ids.length = 0 <;>
          simp [layouts_api, hlen, hchk, SLURM_ERROR, SLURM_SUCCESS]
    | some ids =>
      by_cases hlen : ids.length = 0 <;>
        simp [layouts_api, hlen, hchk, SLURM_ERROR, SLURM_SUCCESS]
  · intro fuel ctx setGet mask vector t
    obtain ⟨pf, spec, kg⟩ := ctx
    cases pf <;> cases spec <;> simp [layouts_api]

theorem c7_validation_witness :
    layouts_api 0 ⟨true, some .other, true⟩ LAYOUTS_API_GET
      LAYOUTS_SET_DIRECTION_UP (some [0]) none none (.node 0 3 .nil)
      = some (SLURM_ERROR, .node 0 3 .nil, none) :=
  c7_validation_rejects_before_mutation.1 0 true LAYOUTS_API_GET
    LAYOUTS_SET_DIRECTION_UP (some [0]) none none (.node 0 3 .nil)
    (Or.inl (by decide)) (by decide) (by decide)

/-- C7 counterexample: a call whose mask carries the UP direction bit
together with the NONE bit, on a layout whose relational structure is not a
tree, passes `_check_layout_consolidation` (NONE classifies the mask as
directionless and the direction bits are never rejected) and completes with
SLURM_SUCCESS — the claim demands a caller-visible error for every call
carrying UP or DOWN bits on a non-tree layout. -/
theorem c7_none_up_nontree_accepted :
    layouts_api 0 ⟨true, some .other, true⟩ LAYOUTS_API_GET
      (LAYOUTS_SET_DIRECTION_NONE ||| LAYOUTS_SET_DIRECTION_UP)
      (some [1]) none (some [0])
      (.node 0 10 (.cons (.node 1 3 .nil) .nil))
      = some (SLURM_SUCCESS, .node 0 10 (.cons (.node 1 3 .nil) .nil), some [3]) := by
  decide

theorem rgu_up_unsupported_id (mask : Nat)
    (hup : maskHas mask LAYOUTS_SET_DIRECTION_UP = true)
    (hconso : maskHas mask LAYOUTS_SET_CONSOLIDATION_SUM = true ∨
              maskHas mask LAYOUTS_SET_CONSOLIDATION_MEAN = true) :
    ∀ (anc : List Int) (t : XTree),
      recursiveUpdateGet .tree mask anc t = (t.val, t, 1) := by
  intro anc t
  cases t with
  | node e v cs =>
    show recursiveUpdateGet .tree mask anc (.node e v cs) = (v, .node e v cs, 1)
    rw [recursiveUpdateGet.eq_def]
    by_cases hsum : maskHas mask LAYOUTS_SET_CONSOLIDATION_SUM = true
    · rw [hup, hsum]; simp
    · have hsumf : maskHas mask LAYOUTS_SET_CONSOLIDATION_SUM = false :=
        Bool.of_not_eq_true hsum
      have hmean : maskHas mask LAYOUTS_SET_CONSOLIDATION_MEAN = true := by
        rcases hconso with h | h
        · exact absurd h hsum
        · exact h
      rw [hup, hsumf, hmean]; simp

mutual
theorem rguAt_of_id (mask : Nat)
    (hid : ∀ (anc : List Int) (sub : XTree),
      recursiveUpdateGet .tree mask anc sub = (sub.val, sub, 1)) :
    ∀ (t : XTree) (anc : List Int) (i : Nat),
      rguAt .tree mask anc i t
        = (findSubtree i t).map (fun sub => (sub.val, t, 1))
  | .node e v cs, anc, i => by
    by_cases he : e = i
    · simp [rguAt, findSubtree, he, hid]
    · rw [rguAt, findSubtree, if_neg he, if_neg he,
        rguAtF_of_id mask hid cs (v :: anc) i]
      cases findSubtreeF i cs <;> simp
theorem rguAtF_of_id (mask : Nat)
    (hid : ∀ (anc : List Int) (sub : XTree),
      recursiveUpdateGet .tree mask anc sub = (sub.val, sub, 1)) :
    ∀ (cs : XForest) (anc : List Int) (i : Nat),
      rguAtF .tree mask anc i cs
        = (findSubtreeF i cs).map (fun sub => (sub.val, cs, 1))
  | .nil, anc, i => by simp [rguAtF, findSubtreeF]
  | .cons t ts, anc, i => by
    rw [rguAtF, findSubtreeF, rguAt_of_id mask hid t anc i]
    cases h : findSubtree i t with
    | some sub => simp
    | none =>
      rw [rguAtF_of_id mask hid ts anc i]
      cases findSubtreeF i ts <;> simp
end

theorem apiGetDirectionLoop_of_id (mask : Nat)
    (hid : ∀ (anc : List Int) (sub : XTree),
      recursiveUpdateGet .tree mask anc sub = (sub.val, sub, 1)) :
    ∀ (ids : List Nat) (t : XTree) (vals : List Int),
      ids.mapM (fun i => findEntityVal i t) = some vals →
      apiGetDirectionLoop .tree mask ids t = some (vals, t, ids.length) := by
  intro ids
  induction ids with
  | nil =>
    intro t vals h
    simp [List.mapM.loop] at h
    simp [apiGetDirectionLoop, ← h]
  | cons i rest ih =>
    intro t vals h
    rw [List.mapM_cons] at h
    cases hv : findEntityVal i t with
    | none => rw [hv] at h; simp at h
    | some v =>
      rw [hv] at h
      cases hrest : rest.mapM (fun j => findEntityVal j t) with
      | none => rw [hrest] at h; simp at h
      | some vs =>
        rw [hrest] at h
        simp at h
        obtain ⟨sub, hsub⟩ : ∃ sub, findSubtree i t = some sub := by
          unfold findEntityVal at hv
          cases hfs : findSubtree i t with
          | none => rw [hfs] at hv; simp at hv
          | some s => exact ⟨s, rfl⟩
        have hval : sub.val = v := by
          unfold findEntityVal at hv
          rw [hsub] at hv
          simpa using hv
        rw [apiGetDirectionLoop]
        unfold recursiveUpdateInitGet
        rw [hv, rguAt_of_id mask hid t [] i, hsub]
        simp only [Option.map_some']
        rw [ih t vs hrest]
        simp [← h, hval, Nat.add_comm]

/-- C5 (amended): a GET with direction UP and consolidation SUM or MEAN is
unsupported in the consolidation engine — `_recursive_update_get` logs one
error and breaks, leaving the entity's value and the whole tree untouched —
but the generic API call completes and reports SLURM_SUCCESS to the caller,
returning the entities' current (un-consolidated) values; no entity
attribute value is modified. -/
theorem c5_get_up_sum_mean_amended :
    (∀ (conso : Nat) (anc : List Int) (t : XTree),
        conso = LAYOUTS_SET_CONSOLIDATION_SUM ∨
        conso = LAYOUTS_SET_CONSOLIDATION_MEAN →
        recursiveUpdateGet .tree (LAYOUTS_SET_DIRECTION_UP ||| conso) anc t
          = (t.val, t, 1)) ∧
    (∀ (fuel conso : Nat) (ids : List Nat) (vals : List Int)
       (vector : Option (List Int)) (t : XTree),
        conso = LAYOUTS_SET_CONSOLIDATION_SUM ∨
        conso = LAYOUTS_SET_CONSOLIDATION_MEAN →
        ids ≠ [] →
        ids.mapM (fun i => findEntityVal i t) = some vals →
        layouts_api_get_updated_value fuel ⟨true, some .tree, true⟩ ids
            LAYOUTS_SET_DIRECTION_UP conso vector t
          = some (SLURM_SUCCESS, t, if vector.isSome then some vals else none)) := by
  have hid : ∀ (conso : Nat),
      conso = LAYOUTS_SET_CONSOLIDATION_SUM ∨
      conso = LAYOUTS_SET_CONSOLIDATION_MEAN →
      ∀ (anc : List Int) (t : XTree),
        recursiveUpdateGet .tree (LAYOUTS_SET_DIRECTION_UP ||| conso) anc t
          = (t.val, t, 1) := by
    intro conso hc
    apply rgu_up_unsupported_id
    · rcases hc with h | h <;> subst h <;> decide
    · rcases hc with h | h <;> subst h
      · exact Or.inl (by decide)
      · exact Or.inr (by decide)
  refine ⟨fun conso anc t hc => hid conso hc anc t, ?_⟩
  intro fuel conso ids vals vector t hc hne hmap
  have hlen : ¬(ids.length = 0) := by
    simpa [List.length_eq_zero] using hne
  rcases hc with h | h <;> subst h
  · have hid260 : ∀ (anc : List Int) (sub : XTree),
        recursiveUpdateGet .tree 260 anc sub = (sub.val, sub, 1) :=
      rgu_up_unsupported_id 260 (by decide) (Or.inl (by decide))
    have hloop := apiGetDirectionLoop_of_id 260 hid260 ids t vals hmap
    have hchk : checkLayoutConsolidation 260 .tree 2 = SLURM_SUCCESS := by decide
    have h260 : ((4 : Nat) ||| 256) = 260 := by decide
    have d8 : maskHas 260 8 = false := by decide
    have d4 : maskHas 260 4 = true := by decide
    simp [layouts_api_get_updated_value, layouts_api, layoutsApiBody, hlen,
      hchk, h260, hloop, d8, d4, LAYOUTS_SET_DIRECTION_UP,
      LAYOUTS_SET_DIRECTION_DOWN, LAYOUTS_SET_CONSOLIDATION_SUM,
      LAYOUTS_SET_CONSOLIDATION_MEAN, LAYOUTS_SET_CONSOLIDATION_SET,
      LAYOUTS_API_SET, LAYOUTS_API_GET, SLURM_SUCCESS, SLURM_ERROR]
  · have hid516 : ∀ (anc : List Int) (sub : XTree),
        recursiveUpdateGet .tree 516 anc sub = (sub.val, sub, 1) :=
      rgu_up_unsupported_id 516 (by decide) (Or.inr (by decide))
    have hloop := apiGetDirectionLoop_of_id 516 hid516 ids t vals hmap
    have hchk : checkLayoutConsolidation 516 .tree 2 = SLURM_SUCCESS := by decide
    have h516 : ((4 : Nat) ||| 512) = 516 := by decide
    have d8 : maskHas 516 8 = false := by decide
    have d4 : maskHas 516 4 = true := by decide
    simp [layouts_api_get_updated_value, layouts_api, layoutsApiBody, hlen,
      hchk, h516, hloop, d8, d4, LAYOUTS_SET_DIRECTION_UP,
      LAYOUTS_SET_DIRECTION_DOWN, LAYOUTS_SET_CONSOLIDATION_SUM,
      LAYOUTS_SET_CONSOLIDATION_MEAN, LAYOUTS_SET_CONSOLIDATION_SET,
      LAYOUTS_API_SET, LAYOUTS_API_GET, SLURM_SUCCESS, SLURM_ERROR]

theorem c5_get_up_sum_mean_witness :
    layouts_api_get_updated_value 3 ⟨true, some .tree, true⟩ [1]
        LAYOUTS_SET_DIRECTION_UP LAYOUTS_SET_CONSOLIDATION_MEAN
        (some [0]) (.node 0 10 (.cons (.node 1 3 .nil) .nil))
      = some (SLURM_SUCCESS, .node 0 10 (.cons (.node 1 3 .nil) .nil), some [3]) :=
  c5_get_up_sum_mean_amended.2 3 LAYOUTS_SET_CONSOLIDATION_MEAN [1] [3]
    (some [0]) (.node 0 10 (.cons (.node 1 3 .nil) .nil))
    (Or.inr rfl) (by decide) (by decide)

/-- C5 counterexample: a GET with UP direction and SUM consolidation through
`layouts_api_get_updated_value` on a tree layout returns SLURM_SUCCESS to
the caller (the unsupported combination is only logged inside the engine),
contradicting the claim that the call reports an explicit error to the
caller. -/
theorem c5_get_up_sum_reports_success :
    layouts_api_get_updated_value 0 ⟨true, some .tree, true⟩ [1]
        LAYOUTS_SET_DIRECTION_UP LAYOUTS_SET_CONSOLIDATION_SUM
        (some [0]) (.node 0 10 (.cons (.node 1 3 .nil) .nil))
      = some (SLURM_SUCCESS, .node 0 10 (.cons (.node 1 3 .nil) .nil), some [3]) := by
  decide

theorem wrap64_wrap64_add (a b : Int) : wrap64 (wrap64 a + b) = wrap64 (a + b) := by
  unfold wrap64
  omega

theorem foldl_consolidationAdd (l : List Int) :
    ∀ a : Int, l ≠ [] → l.foldl (fun x y => consolidationAdd x y) a = wrap64 (a + l.sum) := by
  induction l with
  | nil => intro a h; exact absurd rfl h
  | cons x xs ih =>
    intro a _
    cases hxs : xs with
    | nil => simp [consolidationAdd]
    | cons y ys =>
      rw [List.foldl_cons]
      rw [hxs] at ih
      rw [ih (consolidationAdd a x) (by simp)]
      show wrap64 (wrap64 (a + x) + (y :: ys).sum) = wrap64 (a + (x :: y :: ys).sum)
      rw [wrap64_wrap64_add]
      rw [List.sum_cons, List.sum_cons, List.sum_cons]
      ring_nf

theorem rguForest_vals (s : LStruct) (m : Nat) (a : List Int) :
    ∀ cs : XForest,
      (recursiveUpdateGetForest s m a cs).1
        = cs.toList.map (fun t => (recursiveUpdateGet s m a t).1)
  | .nil => by simp [recursiveUpdateGetForest, XForest.toList]
  | .cons t ts => by
    simp [recursiveUpdateGetForest, XForest.toList, rguForest_vals s m a ts]

theorem xforest_toList_length :
    ∀ cs : XForest, cs.toList.length = cs.length
  | .nil => rfl
  | .cons t ts => by
    simp [XForest.toList, XForest.length, xforest_toList_length ts]

/-- C2: a GET with direction DOWN and consolidation SUM computed on an entity
node yields the (64-bit wrapped) sum of its immediate children's recursively
consolidated values, an entity with no children keeping its own stored value,
and consolidation MEAN yields that sum divided (C truncating division) by the
number of immediate children; in particular for a parent whose leaf children
hold 3, 5 and 7, DOWN+SUM yields 15 and DOWN+MEAN yields 5. -/
theorem c2_get_down_sum_mean :
    (∀ (e : Nat) (v : Int) (anc : List Int),
        rguVal .tree (LAYOUTS_SET_DIRECTION_DOWN ||| LAYOUTS_SET_CONSOLIDATION_SUM)
            anc (.node e v .nil) = v ∧
        rguVal .tree (LAYOUTS_SET_DIRECTION_DOWN ||| LAYOUTS_SET_CONSOLIDATION_MEAN)
            anc (.node e v .nil) = v) ∧
    (∀ (e : Nat) (v : Int) (anc : List Int) (cs : XForest), cs ≠ .nil →
        rguVal .tree (LAYOUTS_SET_DIRECTION_DOWN ||| LAYOUTS_SET_CONSOLIDATION_SUM)
            anc (.node e v cs)
          = wrap64 ((cs.toList.map (fun c =>
              rguVal .tree (LAYOUTS_SET_DIRECTION_DOWN |||
                LAYOUTS_SET_CONSOLIDATION_SUM) (v :: anc) c)).sum) ∧
        rguVal .tree (LAYOUTS_SET_DIRECTION_DOWN ||| LAYOUTS_SET_CONSOLIDATION_MEAN)
            anc (.node e v cs)
          = Int.tdiv
              (wrap64 ((cs.toList.map (fun c =>
                rguVal .tree (LAYOUTS_SET_DIRECTION_DOWN |||
                  LAYOUTS_SET_CONSOLIDATION_MEAN) (v :: anc) c)).sum))
              (cs.toList.length : Int)) ∧
    rguVal .tree (LAYOUTS_SET_DIRECTION_DOWN ||| LAYOUTS_SET_CONSOLIDATION_SUM) []
        (.node 0 0 (.cons (.node 1 3 .nil)
          (.cons (.node 2 5 .nil) (.cons (.node 3 7 .nil) .nil)))) = 15 ∧
    rguVal .tree (LAYOUTS_SET_DIRECTION_DOWN ||| LAYOUTS_SET_CONSOLIDATION_MEAN) []
        (.node 0 0 (.cons (.node 1 3 .nil)
          (.cons (.node 2 5 .nil) (.cons (.node 3 7 .nil) .nil)))) = 5 := by
  have h264 : (LAYOUTS_SET_DIRECTION_DOWN ||| LAYOUTS_SET_CONSOLIDATION_SUM) = 264 := by
    decide
  have h520 : (LAYOUTS_SET_DIRECTION_DOWN ||| LAYOUTS_SET_CONSOLIDATION_MEAN) = 520 := by
    decide
  have u264 : maskHas 264 LAYOUTS_SET_DIRECTION_UP = false := by decide
  have d264 : maskHas 264 LAYOUTS_SET_DIRECTION_DOWN = true := by decide
  have cset264 : maskHas 264 LAYOUTS_SET_CONSOLIDATION_SET = false := by decide
  have csum264 : maskHas 264 LAYOUTS_SET_CONSOLIDATION_SUM = true := by decide
  have cmean264 : maskHas 264 LAYOUTS_SET_CONSOLIDATION_MEAN = false := by decide
  have u520 : maskHas 520 LAYOUTS_SET_DIRECTION_UP = false := by decide
  have d520 : maskHas 520 LAYOUTS_SET_DIRECTION_DOWN = true := by decide
  have cset520 : maskHas 520 LAYOUTS_SET_CONSOLIDATION_SET = false := by decide
  have csum520 : maskHas 520 LAYOUTS_SET_CONSOLIDATION_SUM = false := by decide
  have cmean520 : maskHas 520 LAYOUTS_SET_CONSOLIDATION_MEAN = true := by decide
  refine ⟨?_, ?_, by decide, by decide⟩
  · intro e v anc
    constructor
    · rw [h264, rguVal, recursiveUpdateGet.eq_def]
      rw [u264, d264, cset264, csum264]
      simp
    · rw [h520, rguVal, recursiveUpdateGet.eq_def]
      rw [u520, d520, cset520, csum520, cmean520]
      simp
  · intro e v anc cs hne
    cases cs with
    | nil => exact absurd rfl hne
    | cons c cs2 =>
      constructor
      · rw [h264, rguVal, recursiveUpdateGet.eq_def]
        rw [u264, d264, cset264, csum264]
        simp only [Bool.false_eq_true, if_false, if_true, Bool.true_or]
        rw [rguForest_vals .tree 264 (v :: anc) (.cons c cs2)]
        rw [foldl_consolidationAdd _ 0 (by simp [XForest.toList])]
        simp [rguVal, cmean264]
      · rw [h520, rguVal, recursiveUpdateGet.eq_def]
        rw [u520, d520, cset520, csum520, cmean520]
        simp only [Bool.false_eq_true, if_false, if_true, Bool.false_or]
        rw [rguForest_vals .tree 520 (v :: anc) (.cons c cs2)]
        rw [foldl_consolidationAdd _ 0 (by simp [XForest.toList])]
        simp [rguVal, consolidationDiv, xforest_toList_length]

theorem c2_get_down_sum_mean_witness :
    rguVal .tree (LAYOUTS_SET_DIRECTION_DOWN ||| LAYOUTS_SET_CONSOLIDATION_SUM) []
        (.node 0 9 (.cons (.node 1 3 .nil) (.cons (.node 2 5 .nil) .nil)))
      = wrap64 (((XForest.cons (XTree.node 1 3 .nil)
          (.cons (.node 2 5 .nil) .nil)).toList.map (fun c =>
            rguVal .tree (LAYOUTS_SET_DIRECTION_DOWN |||
              LAYOUTS_SET_CONSOLIDATION_SUM) [9] c)).sum) :=
  (c2_get_down_sum_mean.2.1 0 9 []
    (.cons (.node 1 3 .nil) (.cons (.node 2 5 .nil) .nil))
    (by decide)).1

theorem ioConnectObjs_objs (st : IOState) (a b : Nat) :
    (ioConnectObjs st a b).objs = st.objs := by
  unfold ioConnectObjs
  split
  · rfl
  · dsimp only
    (try split) <;> (try split) <;> (try split) <;> rfl

theorem ioConnectObjs_fields (st : IOState) (a b x : Nat) :
    ((ioConnectObjs st a b).get x).fd = ((st.get x).fd) ∧
    ((ioConnectObjs st a b).get x).buf = ((st.get x).buf) ∧
    ((ioConnectObjs st a b).get x).eof = ((st.get x).eof) ∧
    ((ioConnectObjs st a b).get x).disconnected = ((st.get x).disconnected) ∧
    ((ioConnectObjs st a b).get x).ops = ((st.get x).ops) ∧
    ((ioConnectObjs st a b).get x).ioType = ((st.get x).ioType) := by
  unfold ioConnectObjs
  split
  · exact ⟨rfl, rfl, rfl, rfl, rfl, rfl⟩
  · dsimp only
    (try split) <;> (try split) <;> (try split) <;>
      refine ⟨?_, ?_, ?_, ?_, ?_, ?_⟩ <;>
      (simp only [IOState.get_upd, IOState.get_crash]
       try (by_cases hxa : x = a <;> by_cases hxb : x = b <;> simp_all))

theorem ioConnectObjs_readers_ne (st : IOState) (a b x : Nat) (hxa : x ≠ a) :
    ((ioConnectObjs st a b).get x).readers = (st.get x).readers := by
  unfold ioConnectObjs
  split
  · rfl
  · dsimp only
    (try split) <;> (try split) <;> (try split) <;>
      (simp only [IOState.get_upd, IOState.get_crash]
       try (by_cases hxb : x = b <;> simp_all))

/-- Disconnecting the sole ghost reader of a stream: with one reader on the
writer's list and no readers of its own, `_io_disconnect_client` only sets
the disconnected flag — nothing is removed from any adjacency list and the
object stays in the object list. -/
theorem ioDisconnectClient_single (st : IOState) (wtr g : Nat) (hgw : g ≠ wtr)
    (h1 : (st.get wtr).readers = some [g])
    (h2 : (st.get g).writers = some [wtr])
    (h3 : (st.get g).readers = none) :
    ioDisconnectClient st g
      = st.upd g (fun io => { io with disconnected := true }) := by
  unfold ioDisconnectClient
  dsimp only
  have e1 : ((st.upd g fun io => { io with disconnected := true }).get g).writers
      = some [wtr] := by
    simp [IOState.get_upd, h2]
  rw [e1]
  simp only [List.foldl_cons, List.foldl_nil]
  have e2 : listCountOpt
      (((st.upd g fun io => { io with disconnected := true }).get wtr).readers)
      = 1 := by
    simp [IOState.get_upd, listCountOpt, h1, (Ne.symm hgw : wtr ≠ g)]
  rw [e2]
  simp only [show ¬(1 > 1) from by omega, if_false]
  have e3 : ((st.upd g fun io => { io with disconnected := true }).get g).readers
      = none := by
    simp [IOState.get_upd, h3]
  rw [e3]
  simp

theorem ghostCycle_step (st : IOState) (wtr g c : Nat) (hgw : g ≠ wtr)
    (h1 : (st.get wtr).readers = some [g])
    (h2 : (st.get g).writers = some [wtr])
    (h3 : (st.get g).readers = none) :
    (((ioClientAttach (ioDisconnectClient st g) c (some wtr) none).get wtr).readers
        = some [g]) ∧
    (((ioClientAttach (ioDisconnectClient st g) c (some wtr) none).get g).writers
        = some [wtr]) ∧
    (((ioClientAttach (ioDisconnectClient st g) c (some wtr) none).get g).readers
        = none) := by
  rw [ioDisconnectClient_single st wtr g hgw h1 h2 h3]
  unfold ioClientAttach
  dsimp only
  have e1 : ((st.upd g fun io => { io with disconnected := true }).get wtr).readers
      = some [g] := by
    simp [IOState.get_upd, h1, (Ne.symm hgw : wtr ≠ g)]
  rw [e1]
  dsimp only [List.head?]
  have e2 : ((st.upd g fun io => { io with disconnected := true }).get g).disconnected
      = true := by
    simp [IOState.get_upd]
  rw [e2]
  simp only [if_true]
  refine ⟨?_, ?_, ?_⟩ <;>
    simp [IOState.get_mk, IOState.infos_apply, IOState.get_upd, h1, h2, h3,
      (Ne.symm hgw : wtr ≠ g)]

/-- C1: resurrection of a disconnected ghost.  When a client is attached to
a writer whose first (primary) reader is a disconnected ghost, the ghost is
resurrected in place: its descriptor and dispatch table are replaced with
the new client's, its buffered bytes and EOF flag are preserved, the new
client object is deleted from the object list, and the writer's readers
list is unchanged.  Consequently, across any sequence of
disconnect/reconnect cycles on the same stream, the readers list of the
task output stays exactly the one-element ghost list. -/
theorem c1_ghost_resurrection :
    (∀ (st : IOState) (client w : Nat) (r : Option Nat) (rs : List Nat) (g : Nat),
        (st.get w).readers = some rs → rs.head? = some g →
        (st.get g).disconnected = true → g ≠ w →
        (((ioClientAttach st client (some w) r).get g).fd = (st.get client).fd) ∧
        (((ioClientAttach st client (some w) r).get g).ops = (st.get client).ops) ∧
        (((ioClientAttach st client (some w) r).get g).disconnected = false) ∧
        (((ioClientAttach st client (some w) r).get g).buf = (st.get g).buf) ∧
        (((ioClientAttach st client (some w) r).get g).eof = (st.get g).eof) ∧
        ((ioClientAttach st client (some w) r).objs
            = st.objs.filter (fun o => o ≠ client)) ∧
        (((ioClientAttach st client (some w) r).get w).readers
            = (st.get w).readers)) ∧
    (∀ (wtr g : Nat) (cs : List Nat) (st : IOState),
        g ≠ wtr →
        (st.get wtr).readers = some [g] →
        (st.get g).writers = some [wtr] →
        (st.get g).readers = none →
        ((ghostCycles wtr g cs st).get wtr).readers = some [g]) := by
  constructor
  · intro st client w r rs g hw hg hd hgw
    unfold ioClientAttach
    simp only [hw]
    simp only [hg]
    simp only [hd, if_true]
    cases r with
    | none =>
      refine ⟨?_, ?_, ?_, ?_, ?_, ?_, ?_⟩ <;>
        simp [IOState.get_mk, IOState.infos_apply, IOState.get_upd,
          IOState.objs_upd, hw, (Ne.symm hgw : w ≠ g)]
    | some rr =>
      refine ⟨?_, ?_, ?_, ?_, ?_, ?_, ?_⟩
      · rw [(ioConnectObjs_fields _ g rr g).1]
        simp [IOState.get_mk, IOState.infos_apply, IOState.get_upd]
      · rw [(ioConnectObjs_fields _ g rr g).2.2.2.2.1]
        simp [IOState.get_mk, IOState.infos_apply, IOState.get_upd]
      · rw [(ioConnectObjs_fields _ g rr g).2.2.2.1]
        simp [IOState.get_mk, IOState.infos_apply, IOState.get_upd]
      · rw [(ioConnectObjs_fields _ g rr g).2.1]
        simp [IOState.get_mk, IOState.infos_apply, IOState.get_upd]
      · rw [(ioConnectObjs_fields _ g rr g).2.2.1]
        simp [IOState.get_mk, IOState.infos_apply, IOState.get_upd]
      · rw [ioConnectObjs_objs]
        simp [IOState.objs_upd]
      · rw [ioConnectObjs_readers_ne _ g rr w (Ne.symm hgw)]
        simp [IOState.get_mk, IOState.infos_apply, IOState.get_upd,
          hw, (Ne.symm hgw : w ≠ g)]
  · intro wtr g cs st hgw h1 h2 h3
    induction cs generalizing st with
    | nil => exact h1
    | cons c cs2 ih =>
      obtain ⟨i1, i2, i3⟩ := ghostCycle_step st wtr g c hgw h1 h2 h3
      exact ih _ i1 i2 i3

/-- Concrete run of the ghost-resurrection theorem on `c1State`: client 2
attaches to writer 0 whose primary reader is the ghost 1. -/
theorem c1_ghost_resurrection_witness :
    ((c1State.get 0).readers = some [1]
      ∧ ([1] : List Nat).head? = some 1
      ∧ (c1State.get 1).disconnected = true
      ∧ (1 : Nat) ≠ 0
      ∧ ((ioClientAttach c1State 2 (some 0) none).get 1).fd = 9
      ∧ ((ioClientAttach c1State 2 (some 0) none).get 1).ops = .clientOps
      ∧ ((ioClientAttach c1State 2 (some 0) none).get 1).disconnected = false
      ∧ ((ioClientAttach c1State 2 (some 0) none).get 1).buf = some [7, 8]
      ∧ ((ioClientAttach c1State 2 (some 0) none).get 1).eof = true
      ∧ (ioClientAttach c1State 2 (some 0) none).objs = [0, 1]
      ∧ ((ioClientAttach c1State 2 (some 0) none).get 0).readers = some [1])
    ∧ ((c1State.get 1).writers = some [0]
      ∧ (c1State.get 1).readers = none
      ∧ ((ghostCycles 0 1 [2, 3, 4] c1State).get 0).readers = some [1]) := by
  obtain ⟨h1, h2⟩ := c1_ghost_resurrection
  obtain ⟨a1, a2, a3, a4, a5, a6, a7⟩ :=
    h1 c1State 2 0 none [1] 1 rfl rfl rfl (by decide)
  exact ⟨⟨rfl, rfl, rfl, by decide, a1.trans rfl, a2.trans rfl, a3,
      a4.trans rfl, a5.trans rfl, a6.trans (by decide), a7.trans rfl⟩,
    rfl, rfl, h2 0 1 [2, 3, 4] c1State (by decide) rfl rfl rfl⟩

/-- C8: the task read handler returns success and no reader's ring buffer
ever exceeds its capacity, but a block read from the task pipe is NOT
written into each current reader's buffer: because the byte count is
overwritten by each `cbuf_write` return value, a reader whose buffer is
full truncates the block to zero bytes for every later reader — here
client 2's empty 100-byte buffer receives none of the 3 bytes read. -/
theorem c8_task_read_full_buffer_starves_later_readers :
    (taskRead c8State 0 (.bytes [9, 9, 9])
        = .ok 0 (fanoutToReaders c8State [1, 2] [9, 9, 9]))
    ∧ ((fanoutToReaders c8State [1, 2] [9, 9, 9]).get 1).buf = some [1, 2, 3, 4]
    ∧ (((fanoutToReaders c8State [1, 2] [9, 9, 9]).get 1).buf.getD []).length
        ≤ (c8State.get 1).bufCap
    ∧ (c8State.get 2).buf = some []
    ∧ (c8State.get 2).bufCap = 100
    ∧ ((fanoutToReaders c8State [1, 2] [9, 9, 9]).get 2).buf = some []
    ∧ (fanoutToReaders c8State [1, 2] [9, 9, 9]).crashed = false :=
  ⟨rfl, by decide, by decide, by decide, by decide, by decide, by decide⟩

theorem prepareTask_get_frame (st : IOState) (b t : Nat)
    (h0 : t ≠ b) (h1 : t ≠ b + 1) (h2 : t ≠ b + 2) (h3 : t ≠ b + 3)
    (h4 : t ≠ b + 4) :
    (prepareTask st b).get t = st.get t := by
  simp [prepareTask, ioClientAttach, ioConnectObjs,
    IOState.get_set, IOState.get_upd, IOState.get_mk, IOState.infos_apply,
    ioObjNew, defaultIOInfo, h0, h1, h2, h3, h4,
    add_left_cancel_iff, Nat.add_right_eq_self, Nat.self_eq_add_right]

theorem prepareTask_get_outputs (st : IOState) (b : Nat) :
    ((prepareTask st b).get (b + 1)).readers = some [b + 2] ∧
    ((prepareTask st b).get (b + 2)).disconnected = true ∧
    ((prepareTask st b).get (b + 2)).fd = -1 ∧
    ((prepareTask st b).get (b + 3)).readers = some [b + 4] ∧
    ((prepareTask st b).get (b + 4)).disconnected = true ∧
    ((prepareTask st b).get (b + 4)).fd = -1 := by
  refine ⟨?_, ?_, ?_, ?_, ?_, ?_⟩ <;>
    simp [prepareTask, ioClientAttach, ioConnectObjs,
      IOState.get_set, IOState.get_upd, IOState.get_mk, IOState.infos_apply,
      ioObjNew, defaultIOInfo,
      add_left_cancel_iff, Nat.add_right_eq_self, Nat.self_eq_add_right]

theorem ioPrepareTasks_succ (m : Nat) (st : IOState) :
    ioPrepareTasks (m + 1) st = prepareTask (ioPrepareTasks m st) (5 * m) := by
  simp [ioPrepareTasks, List.range_succ]

theorem ioPrepareTasks_outputs (n : Nat) (st : IOState) (i : Nat)
    (hi : i < n) :
    ((ioPrepareTasks n st).get (5 * i + 1)).readers = some [5 * i + 2] ∧
    ((ioPrepareTasks n st).get (5 * i + 2)).disconnected = true ∧
    ((ioPrepareTasks n st).get (5 * i + 2)).fd = -1 ∧
    ((ioPrepareTasks n st).get (5 * i + 3)).readers = some [5 * i + 4] ∧
    ((ioPrepareTasks n st).get (5 * i + 4)).disconnected = true ∧
    ((ioPrepareTasks n st).get (5 * i + 4)).fd = -1 := by
  induction n generalizing st with
  | zero => omega
  | succ m ih =>
    rcases Nat.lt_succ_iff_lt_or_eq.mp hi with hlt | heq
    · obtain ⟨a1, a2, a3, a4, a5, a6⟩ := ih st hlt
      have f1 := prepareTask_get_frame (ioPrepareTasks m st) (5 * m)
        (5 * i + 1) (by omega) (by omega) (by omega) (by omega) (by omega)
      have f2 := prepareTask_get_frame (ioPrepareTasks m st) (5 * m)
        (5 * i + 2) (by omega) (by omega) (by omega) (by omega) (by omega)
      have f3 := prepareTask_get_frame (ioPrepareTasks m st) (5 * m)
        (5 * i + 3) (by omega) (by omega) (by omega) (by omega) (by omega)
      have f4 := prepareTask_get_frame (ioPrepareTasks m st) (5 * m)
        (5 * i + 4) (by omega) (by omega) (by omega) (by omega) (by omega)
      rw [ioPrepareTasks_succ, f1, f2, f3, f4]
      exact ⟨a1, a2, a3, a4, a5, a6⟩
    · subst heq
      rw [ioPrepareTasks_succ]
      exact prepareTask_get_outputs (ioPrepareTasks i st) (5 * i)

theorem ioDisconnect_get_readers (st : IOState) (src dst t : Nat)
    (h : t ≠ src) :
    ((ioDisconnect st src dst).get t).readers = (st.get t).readers := by
  simp only [ioDisconnect]
  rcases hr : (st.get src).readers with _ | rs
  · simp only [hr]
    rcases hw : ((st.crash).get dst).writers with _ | ws
    · simp only [hw, IOState.get_crash]
    · simp only [hw]
      by_cases htd : t = dst
      · subst htd
        simp [IOState.get_upd, IOState.get_crash]
      · simp [IOState.get_upd, IOState.get_crash, htd]
  · simp only [hr]
    rcases hw : (((st.upd src fun io =>
        { io with readers := some (rs.filter (fun x => x ≠ dst)) }).get
          dst)).writers with _ | ws
    · simp only [hw]
      simp [IOState.get_upd, IOState.get_crash, h]
    · simp only [hw]
      by_cases htd : t = dst
      · subst htd
        simp [IOState.get_upd, h]
      · simp [IOState.get_upd, h, htd]

theorem ioDisconnect_src_readers_subset (st : IOState) (src dst x : Nat)
    (hx : x ∈ ((ioDisconnect st src dst).get src).readers.getD []) :
    x ∈ (st.get src).readers.getD [] := by
  simp only [ioDisconnect] at hx
  rcases hr : (st.get src).readers with _ | rs
  · simp only [hr] at hx
    rcases hw : ((st.crash).get dst).writers with _ | ws
    · simp only [hw] at hx
      simp [IOState.get_crash, hr] at hx
    · simp only [hw] at hx
      by_cases hsd : src = dst
      · subst hsd
        simp [IOState.get_upd, IOState.get_crash, hr] at hx
      · simp [IOState.get_upd, IOState.get_crash, hsd, hr] at hx
  · simp only [hr] at hx
    simp only [Option.getD_some]
    rcases hw : (((st.upd src fun io =>
        { io with readers := some (rs.filter (fun x => x ≠ dst)) }).get
          dst)).writers with _ | ws
    · simp only [hw] at hx
      simp [IOState.get_upd, IOState.get_crash, List.mem_filter] at hx
      exact hx.1
    · simp only [hw] at hx
      by_cases hsd : src = dst
      · subst hsd
        simp [IOState.get_upd, List.mem_filter] at hx
        exact hx.1
      · simp [IOState.get_upd, hsd, List.mem_filter] at hx
        exact hx.1

theorem pass1_foldl_readers (client t : Nat) (h : t ≠ client) :
    ∀ (ws : List Nat) (acc : IOState × Bool),
      (((ws.foldl (fun acc u =>
          if listCountOpt ((acc.1.get u).readers) > 1
          then (ioDisconnect acc.1 client u, true) else acc) acc).1.get
            t).readers)
        = ((acc.1.get t).readers) := by
  intro ws
  induction ws with
  | nil => intro acc; rfl
  | cons w ws2 ih =>
    intro acc
    rw [List.foldl_cons, ih]
    by_cases hc : listCountOpt ((acc.1.get w).readers) > 1
    · simp only [if_pos hc]
      exact ioDisconnect_get_readers acc.1 client w t h
    · simp only [if_neg hc]

theorem pass1_foldl_client_subset (client x : Nat) :
    ∀ (ws : List Nat) (acc : IOState × Bool),
      x ∈ (((ws.foldl (fun acc u =>
          if listCountOpt ((acc.1.get u).readers) > 1
          then (ioDisconnect acc.1 client u, true) else acc) acc).1.get
            client).readers.getD []) →
      x ∈ ((acc.1.get client).readers.getD []) := by
  intro ws
  induction ws with
  | nil => intro acc hx; exact hx
  | cons w ws2 ih =>
    intro acc hx
    rw [List.foldl_cons] at hx
    have hx2 := ih _ hx
    by_cases hc : listCountOpt ((acc.1.get w).readers) > 1
    · rw [if_pos hc] at hx2
      exact ioDisconnect_src_readers_subset acc.1 client w x hx2
    · rw [if_neg hc] at hx2
      exact hx2

theorem pass2_foldl_readers (client t : Nat) :
    ∀ (rs : List Nat) (acc : IOState),
      (∀ y ∈ rs, t ≠ y) →
      (((rs.foldl (fun acc u =>
          if listCountOpt ((acc.get u).writers) > 1
          then ioDisconnect acc u client else acc) acc).get t).readers)
        = ((acc.get t).readers) := by
  intro rs
  induction rs with
  | nil => intro acc _; rfl
  | cons y rs2 ih =>
    intro acc hy
    rw [List.foldl_cons, ih _ (fun z hz => hy z (List.mem_cons_of_mem y hz))]
    by_cases hc : listCountOpt ((acc.get y).writers) > 1
    · rw [if_pos hc]
      exact ioDisconnect_get_readers acc y client t (hy y (List.mem_cons_self y rs2))
    · rw [if_neg hc]

theorem ioDisconnectClient_readers_frame (st : IOState) (client t : Nat)
    (ht : t ≠ client)
    (hm : ∀ x ∈ ((st.get client).readers.getD []), t ≠ x) :
    ((ioDisconnectClient st client).get t).readers = (st.get t).readers := by
  have hub : ∀ u, ((st.upd client fun io =>
      { io with disconnected := true }).get u).readers
      = (st.get u).readers := by
    intro u
    by_cases hu : u = client <;> simp [IOState.get_upd, hu]
  simp only [ioDisconnectClient]
  rcases hw : ((st.upd client fun io =>
      { io with disconnected := true }).get client).writers with _ | ws
  · dsimp only
    rcases hr : ((st.upd client fun io =>
        { io with disconnected := true }).get client).readers with _ | rs
    · simp only [Bool.false_eq_true, if_false]
      exact hub t
    · have hy : ∀ y ∈ rs, t ≠ y := by
        intro y hyrs
        apply hm
        have h2 : y ∈ (((st.upd client fun io =>
            { io with disconnected := true }).get client).readers.getD []) := by
          rw [hr]
          simpa using hyrs
        rwa [hub client] at h2
      simp only [Bool.false_eq_true, if_false]
      rw [pass2_foldl_readers client t rs _ hy]
      exact hub t
  · dsimp only
    generalize hp : ws.foldl (fun acc u =>
        if listCountOpt ((acc.1.get u).readers) > 1
        then (ioDisconnect acc.1 client u, true) else acc)
        ((st.upd client fun io => { io with disconnected := true }), false) = p
    have hpr : (p.1.get t).readers
        = ((st.upd client fun io =>
            { io with disconnected := true }).get t).readers := by
      rw [← hp]
      exact pass1_foldl_readers client t ht ws _
    have hps : ∀ x, x ∈ ((p.1.get client).readers.getD []) →
        x ∈ (((st.upd client fun io =>
          { io with disconnected := true }).get client).readers.getD []) := by
      intro x hx
      rw [← hp] at hx
      exact pass1_foldl_client_subset client x ws _ hx
    rcases hr : (p.1.get client).readers with _ | rs
    · cases hb : p.2
      · simp only [hb, Bool.false_eq_true, if_false]
        rw [hpr]
        exact hub t
      · simp only [hb, if_true, IOState.get_mk, IOState.infos_apply]
        rw [hpr]
        exact hub t
    · have hy : ∀ y ∈ rs, t ≠ y := by
        intro y hyrs
        apply hm
        have h2 : y ∈ ((p.1.get client).readers.getD []) := by
          rw [hr]
          simpa using hyrs
        have h3 := hps y h2
        rwa [hub client] at h3
      cases hb : p.2
      · simp only [hb, Bool.false_eq_true, if_false]
        rw [pass2_foldl_readers client t rs _ hy, hpr]
        exact hub t
      · simp only [hb, if_true, IOState.get_mk, IOState.infos_apply]
        rw [pass2_foldl_readers client t rs _ hy, hpr]
        exact hub t

theorem ioConnectObjs_readers_nonempty (st : IOState) (o1 o2 t : Nat)
    (h : (st.get t).readers.getD [] ≠ []) :
    ((ioConnectObjs st o1 o2).get t).readers.getD [] ≠ [] := by
  by_cases ht1 : t = o1
  · subst ht1
    unfold ioConnectObjs
    split
    · next hr =>
      simp [hr] at h
    · next rs hr =>
      dsimp only
      (try split) <;> (try split) <;> (try split) <;>
        (by_cases ht2 : t = o2 <;>
          simp_all [IOState.get_upd, IOState.get_crash])
  · rw [ioConnectObjs_readers_ne st o1 o2 t ht1]
    exact h

theorem ioClientAttach_readers_nonempty (st : IOState) (client : Nat)
    (w r : Option Nat) (t : Nat)
    (h : (st.get t).readers.getD [] ≠ []) :
    ((ioClientAttach st client w r).get t).readers.getD [] ≠ [] := by
  unfold ioClientAttach
  rcases w with _ | w
  · rcases r with _ | r
    · simpa [IOState.get_crash] using h
    · dsimp only
      simp only [IOState.get_mk, IOState.infos_apply]
      exact ioConnectObjs_readers_nonempty st client r t h
  · dsimp only
    rcases hrd : (st.get w).readers with _ | rs
    · simpa [IOState.get_crash] using h
    · dsimp only
      rcases hh : rs.head? with _ | g
      · dsimp only
        simp only [IOState.get_mk, IOState.infos_apply]
        rcases r with _ | rr
        · dsimp only
          refine ioConnectObjs_readers_nonempty _ w client t ?_
          by_cases htc : t = client
          · subst htc
            simpa [IOState.get_upd] using h
          · simpa [IOState.get_upd, htc] using h
        · dsimp only
          refine ioConnectObjs_readers_nonempty _ client rr t ?_
          refine ioConnectObjs_readers_nonempty _ w client t ?_
          by_cases htc : t = client
          · subst htc
            simpa [IOState.get_upd] using h
          · simpa [IOState.get_upd, htc] using h
      · dsimp only
        by_cases hd : (st.get g).disconnected = true
        · simp only [hd, if_true]
          have h1 : ((st.upd g fun io =>
              { io with fd := (st.get client).fd, disconnected := false,
                        ops := (st.get client).ops }).get t).readers.getD []
              ≠ [] := by
            by_cases htg : t = g
            · subst htg
              simpa [IOState.get_upd] using h
            · simpa [IOState.get_upd, htg] using h
          rcases r with _ | rr
          · dsimp only
            simpa [IOState.get_mk, IOState.infos_apply] using h1
          · dsimp only
            refine ioConnectObjs_readers_nonempty _ g rr t ?_
            simpa [IOState.get_mk, IOState.infos_apply] using h1
        · rw [Bool.not_eq_true] at hd
          simp only [hd, Bool.false_eq_true, if_false]
          simp only [IOState.get_mk, IOState.infos_apply]
          rcases r with _ | rr
          · dsimp only
            refine ioConnectObjs_readers_nonempty _ w client t ?_
            by_cases htc : t = client
            · subst htc
              simpa [IOState.get_upd] using h
            · simpa [IOState.get_upd, htc] using h
          · dsimp only
            refine ioConnectObjs_readers_nonempty _ client rr t ?_
            refine ioConnectObjs_readers_nonempty _ w client t ?_
            by_cases htc : t = client
            · subst htc
              simpa [IOState.get_upd] using h
            · simpa [IOState.get_upd, htc] using h

/-- C10: every task stdout/stderr object keeps a non-empty readers list.
At job spawn each task output (ids 5i+1 stdout, 5i+3 stderr) is created
with exactly its buffering ghost client (5i+2 resp. 5i+4) as reader, the
ghost being born disconnected from its invalid descriptor -1; a client
disconnect never changes the readers list of any object that is neither
the departing client nor one of that client's own readers (task outputs
are in a client's writers list, not its readers list); and a client
attach never empties any object's non-empty readers list.  Together the
invariant is preserved across the engine's reconfiguration steps. -/
theorem c10_task_output_readers_nonempty :
    (∀ (n : Nat) (st : IOState) (i : Nat), i < n →
        ((ioPrepareTasks n st).get (5 * i + 1)).readers = some [5 * i + 2] ∧
        ((ioPrepareTasks n st).get (5 * i + 2)).disconnected = true ∧
        ((ioPrepareTasks n st).get (5 * i + 2)).fd = -1 ∧
        ((ioPrepareTasks n st).get (5 * i + 3)).readers = some [5 * i + 4] ∧
        ((ioPrepareTasks n st).get (5 * i + 4)).disconnected = true ∧
        ((ioPrepareTasks n st).get (5 * i + 4)).fd = -1) ∧
    (∀ (st : IOState) (client t : Nat),
        t ≠ client →
        (∀ x ∈ ((st.get client).readers.getD []), t ≠ x) →
        ((ioDisconnectClient st client).get t).readers
          = (st.get t).readers) ∧
    (∀ (st : IOState) (client : Nat) (w r : Option Nat) (t : Nat),
        (st.get t).readers.getD [] ≠ [] →
        ((ioClientAttach st client w r).get t).readers.getD [] ≠ []) :=
  ⟨fun n st i hi => ioPrepareTasks_outputs n st i hi,
   fun st client t h1 h2 => ioDisconnectClient_readers_frame st client t h1 h2,
   fun st client w r t h1 => ioClientAttach_readers_nonempty st client w r t h1⟩

/-- Concrete run of the C10 invariant: one freshly prepared task, then a
disconnect of client 2 and an attach of client 2 on the handle `c1State`. -/
theorem c10_task_output_readers_nonempty_witness :
    ((0 : Nat) < 1
      ∧ ((ioPrepareTasks 1
            { objs := [], infos := fun _ => defaultIOInfo, crashed := false
            }).get 1).readers = some [2]
      ∧ ((ioPrepareTasks 1
            { objs := [], infos := fun _ => defaultIOInfo, crashed := false
            }).get 3).readers = some [4])
    ∧ ((0 : Nat) ≠ 2
      ∧ (∀ x ∈ ((c1State.get 2).readers.getD []), (0 : Nat) ≠ x)
      ∧ ((ioDisconnectClient c1State 2).get 0).readers = some [1])
    ∧ ((c1State.get 0).readers.getD [] ≠ []
      ∧ ((ioClientAttach c1State 2 (some 0) none).get 0).readers.getD []
          ≠ []) := by
  obtain ⟨p1, p2, p3⟩ := c10_task_output_readers_nonempty
  obtain ⟨a1, _, _, a4, _, _⟩ := p1 1
    { objs := [], infos := fun _ => defaultIOInfo, crashed := false } 0
    (by decide)
  refine ⟨⟨by decide, ?_, ?_⟩, ⟨by decide, by decide, ?_⟩, by decide, ?_⟩
  · exact a1
  · exact a4
  · exact (p2 c1State 2 0 (by decide) (by decide)).trans rfl
  · exact p3 c1State 2 (some 0) none 0 (by decide)
